import Mathlib

/-!
# InvoiceFlow document reconciliation engine — a shallow embedding

This file embeds the matching / reconciliation service of the InvoiceFlow
backend (`backend/src/services/matching.py`, class `MatchingService`) into
Lean 4 and proves properties of it.

Modelling conventions:
* Python numbers (floats / Decimals) are modelled as `ℚ`.
* Nullable fields are `Option` values; Python truthiness (`if x:`) on a
  nullable string is `truthyS`, on a nullable number `truthyQ`.
* The external `rapidfuzz.fuzz.ratio` similarity is an explicit parameter
  `ratio : String → String → ℚ` threaded through the service functions,
  exactly at the call sites where the source calls `fuzz.ratio`.
* `str.strip` / `str.upper` / `int(...)` / `str.isdigit` are modelled over
  the ASCII fragment (`pyStrip`, `pyUpper`, `pyParseInt`, `pyIsdigit`).
* The database snapshot (documents plus their `ExtractedData`, as read by
  the SQLAlchemy queries at the top of `match_documents_in_workspace` and
  in `_get_extracted_data`) is an explicit `Snapshot` argument.
-/

namespace InvoiceFlow

/-! ## Python string primitives (ASCII fragment) -/

/-- Characters treated as whitespace by Python's `str.strip` (ASCII part). -/
def isPySpace (c : Char) : Bool :=
  c = ' ' || c = '\t' || c = '\n' || c = '\x0d' || c = '\x0b' || c = '\x0c'

/-- Python `str.strip()`: drop leading and trailing whitespace. -/
def pyStrip (s : String) : String :=
  ⟨((s.data.dropWhile isPySpace).reverse.dropWhile isPySpace).reverse⟩

/-- Python `str.upper()` (ASCII fragment). -/
def pyUpper (s : String) : String :=
  ⟨s.data.map Char.toUpper⟩

/-- ASCII decimal digit test. -/
def isDigitChar (c : Char) : Bool :=
  '0' ≤ c && c ≤ '9'

/-- Python `str.isdigit()` on the ASCII fragment: non-empty and all digits. -/
def pyIsdigit (s : String) : Bool :=
  !s.data.isEmpty && s.data.all isDigitChar

/-- Digit-part of Python's `int` literal grammar: digits with single
underscores allowed between digits, accumulating the value. -/
def digitsCore (acc : ℕ) : List Char → Option ℕ
  | [] => some acc
  | c :: cs =>
    if isDigitChar c then digitsCore (10 * acc + (c.toNat - 48)) cs
    else if c = '_' then
      match cs with
      | c2 :: cs2 =>
        if isDigitChar c2 then digitsCore (10 * acc + (c2.toNat - 48)) cs2
        else none
      | [] => none
    else none

/-- A non-empty digit sequence (underscore-separated) to its value. -/
def parseDigits : List Char → Option ℕ
  | [] => none
  | c :: cs => if isDigitChar c then digitsCore (c.toNat - 48) cs else none

/-- Python `int(s)` on a string: strips whitespace, optional sign, then a
digit-part. Returns `none` where Python raises `ValueError`. -/
def pyParseInt (s : String) : Option ℤ :=
  match (pyStrip s).data with
  | [] => none
  | c :: rest =>
    if c = '+' then (parseDigits rest).map Int.ofNat
    else if c = '-' then (parseDigits rest).map (fun n => -(n : ℤ))
    else (parseDigits (c :: rest)).map Int.ofNat

/-- ASCII character of a decimal digit. -/
def digitChar (d : ℕ) : Char :=
  Char.ofNat (48 + d)

/-- Fuel-driven digit expansion (the fuel is only a structural-recursion
device; `natToDecimal` always supplies enough). -/
def natToDecimalGo : ℕ → ℕ → List Char
  | 0, _ => []
  | fuel + 1, n =>
    if n < 10 then [digitChar n]
    else natToDecimalGo fuel (n / 10) ++ [digitChar (n % 10)]

/-- Decimal digits of a natural number, most significant first (no
leading zeros except for `0` itself). -/
def natToDecimal (n : ℕ) : List Char :=
  natToDecimalGo (n + 1) n

/-- Python `str(...)` on an `int`: decimal digits without leading zeros,
preceded by a minus sign for negative values. -/
def pyIntStr (n : ℤ) : String :=
  if n < 0 then ⟨'-' :: natToDecimal n.natAbs⟩ else ⟨natToDecimal n.natAbs⟩

/-! ## Truthiness helpers -/

/-- Python truthiness of a nullable string: `None` and `""` are falsy. -/
def truthyS : Option String → Bool
  | none => false
  | some s => !(s == "")

/-- Python truthiness of a nullable number: `None` and `0` are falsy. -/
def truthyQ : Option ℚ → Bool
  | none => false
  | some q => !(q == 0)

/-- Python `x or 0` on a nullable number (used for quantities / prices). -/
def orZeroQ (x : Option ℚ) : ℚ :=
  if truthyQ x then x.getD 0 else 0

/-- Python `x or ""` followed by `.strip()` on a nullable string. -/
def stripOr (x : Option String) : String :=
  pyStrip (x.getD "")

/-- Python `a or b` on nullable strings: `b` when `a` is falsy. -/
def pyOrS (a b : Option String) : Option String :=
  if truthyS a then a else b

/-! ## Data model (`models/document.py`, `models/extracted_data.py`,
`models/matching.py`; the extraction-facing fields of `ExtractedData`
consumed by the matching service). -/

/-- The `DocumentType` enum. -/
inductive DocumentType
  | purchase_order
  | invoice
  | delivery_note
  deriving DecidableEq, Repr

/-- A workspace document, restricted to the fields the matching service
reads. -/
structure Document where
  id : String
  workspace_id : String
  document_type : DocumentType
  status : String
  deriving DecidableEq, Repr

/-- One line item of `ExtractedData.line_items` (JSON dicts in the source;
`.get` on an absent key is `none`). -/
structure LineItem where
  item_number : Option String := none
  description : Option String := none
  quantity : Option ℚ := none
  unit_price : Option ℚ := none
  line_total : Option ℚ := none
  deriving DecidableEq, Repr

/-- The fields of `ExtractedData` that `MatchingService` consumes. -/
structure ExtractedData where
  po_number : Option String := none
  vendor_name : Option String := none
  total_amount : Option ℚ := none
  subtotal : Option ℚ := none
  tax_amount : Option ℚ := none
  tax_rate : Option ℚ := none
  currency_code : Option String := none
  line_items : Option (List LineItem) := none
  deriving DecidableEq, Repr

/-- The payload maps (`po_value` / `invoice_value` / `delivery_value`)
placed in discrepancy dicts by the source, one constructor per dict shape
used. -/
inductive FieldValue
  | quantity (q : ℚ)
  | unitPrice (p : ℚ)
  | currencyCode (c : Option String)
  | taxRateAmount (rate : ℚ) (amount : Option ℚ)
  | taxAmountRate (amount : ℚ) (rate : Option ℚ)
  | wholeItem (it : LineItem)
  | descriptionOf (d : Option String)
  deriving DecidableEq, Repr

/-- A discrepancy record (the dicts appended to `discrepancies`). The
`message` strings of the source are human-readable summaries; no claim
depends on them, and numeric formatting differs from Python's `f"{x:.2f}"`,
so messages are modelled by the structured data they render. -/
structure Discrepancy where
  dtype : String
  severity : String
  item_number : Option String
  description : Option String
  po_value : Option FieldValue
  invoice_value : Option FieldValue
  delivery_value : Option FieldValue
  deriving DecidableEq, Repr

/-- The `match_confidence` JSON payload
(`_calculate_confidence_scores` plus the `vendor_name` key added in
`_create_matching_result`). -/
structure ConfidenceScores where
  po_number_match : ℚ
  vendor_name_match : ℚ
  overall : ℚ
  vendor_name : String
  deriving DecidableEq, Repr

/-- A `MatchingResult` row as populated by `_create_matching_result`
(identity/timestamp columns and ORM relationships omitted; the string-typed
amount columns are kept as the `ℚ` values they serialise). -/
structure MatchingResult where
  workspace_id : String
  po_document_id : String
  invoice_document_id : String
  delivery_note_document_id : Option String
  match_confidence : ConfidenceScores
  matched_by : String
  total_po_amount : ℚ
  total_invoice_amount : ℚ
  total_delivery_amount : Option ℚ
  total_difference : ℚ
  discrepancies : List Discrepancy
  deriving DecidableEq, Repr

/-- The in-memory database snapshot the service reads: the `documents`
table rows and the `extracted_data` rows keyed by `document_id` (the query
in `_get_extracted_data` takes `.first()`, i.e. the first row whose
`document_id` matches). -/
structure Snapshot where
  documents : List Document
  extracted : List (String × ExtractedData)
  deriving Repr

/-- Source `MatchingService._get_extracted_data`. -/
def get_extracted_data (ext : List (String × ExtractedData)) (document_id : String) :
    Option ExtractedData :=
  (ext.find? (fun p => p.1 == document_id)).map Prod.snd

/-! ## Similarity utilities -/

/-- Source `MatchingService._normalize_item_number`: empty/falsy input gives `""`;
otherwise strip, and if Python `int(...)` succeeds return the decimal form
of the integer, else the stripped string unchanged. -/
def normalize_item_number (item_num : String) : String :=
  if item_num == "" then ""
  else
    let t := pyStrip item_num
    match pyParseInt t with
    | some n => pyIntStr n
    | none => t

/-- Source `MatchingService._vendor_names_match` (threshold 85), with the
surrounding nullability of its call sites folded in: the source guards
`if not name1 or not name2: return False`. -/
def vendor_names_match (ratio : String → String → ℚ) (name1 name2 : Option String) : Bool :=
  match name1, name2 with
  | some n1, some n2 =>
    if n1 == "" || n2 == "" then false
    else
      let c1 := pyUpper (pyStrip n1)
      let c2 := pyUpper (pyStrip n2)
      if c1 == c2 then true
      else decide ((85 : ℚ) ≤ ratio c1 c2)
  | _, _ => false

/-- The PO-number comparison used throughout the pairer:
`a and b and a.strip().upper() == b.strip().upper()`. -/
def po_numbers_match (a b : Option String) : Bool :=
  truthyS a && truthyS b &&
    (pyUpper (pyStrip (a.getD "")) == pyUpper (pyStrip (b.getD "")))

/-! ## Document pairer -/

/-- Source `MatchingService._find_matching_invoice`: scan invoices in order, skip
those without extracted data, return the first whose po_number matches or
(failing that, for the same invoice) whose vendor name matches. -/
def find_matching_invoice (ratio : String → String → ℚ)
    (ext : List (String × ExtractedData)) (po_data : ExtractedData) :
    List Document → Option Document
  | [] => none
  | inv :: rest =>
    match get_extracted_data ext inv.id with
    | none => find_matching_invoice ratio ext po_data rest
    | some inv_data =>
      if po_numbers_match po_data.po_number inv_data.po_number then some inv
      else if truthyS po_data.vendor_name && truthyS inv_data.vendor_name &&
          vendor_names_match ratio po_data.vendor_name inv_data.vendor_name then some inv
      else find_matching_invoice ratio ext po_data rest

/-- Source `MatchingService._find_matching_delivery_note` (same strategy as the
invoice pairer, over delivery notes). -/
def find_matching_delivery_note (ratio : String → String → ℚ)
    (ext : List (String × ExtractedData)) (po_data : ExtractedData) :
    List Document → Option Document
  | [] => none
  | dn :: rest =>
    match get_extracted_data ext dn.id with
    | none => find_matching_delivery_note ratio ext po_data rest
    | some dn_data =>
      if po_numbers_match po_data.po_number dn_data.po_number then some dn
      else if truthyS po_data.vendor_name && truthyS dn_data.vendor_name &&
          vendor_names_match ratio po_data.vendor_name dn_data.vendor_name then some dn
      else find_matching_delivery_note ratio ext po_data rest

/-! ## Line-item matcher (`MatchingService._match_items`) -/

/-- One entry of the list returned by `_match_items`: the source builds
dicts keyed `{source1}_index` / `{source1}_item` / `{source2}_index` /
`{source2}_item` / `score`; `left` is `source1` (the PO side at both call
sites), `right` is `source2` (Invoice or DN). -/
structure ItemMatch where
  left_index : ℕ
  left_item : LineItem
  right_index : ℕ
  right_item : LineItem
  score : ℚ
  deriving DecidableEq, Repr

/-- The "reverse normalization" integer check of `_match_items`:
`int(n) if n and n.isdigit() else None` on both sides, equal when both
defined (the enclosing `try` never fires on ASCII digit strings). -/
def digit_int_check (n1 n2 : String) : Bool :=
  match (if pyIsdigit n1 then pyParseInt n1 else none),
      (if pyIsdigit n2 then pyParseInt n2 else none) with
  | some a, some b => a == b
  | _, _ => false

/-- The inner scan of `_match_items` over `items2` for one left item:
carries the current index `j`, the best fuzzy candidate so far and its
score; the three item-number checks return immediately (`break`) at score
100, a fuzzy description score updates the candidate when it strictly
beats the best and reaches the threshold 80. -/
def match_scan (ratio : String → String → ℚ) (desc1 norm1 num1 : String)
    (used : List ℕ) (j : ℕ) :
    List LineItem → Option (ℕ × LineItem) → ℚ → Option (ℕ × LineItem) × ℚ
  | [], best, bestScore => (best, bestScore)
  | item2 :: rest, best, bestScore =>
    if j ∈ used then
      match_scan ratio desc1 norm1 num1 used (j + 1) rest best bestScore
    else
      let desc2 := stripOr item2.description
      let num2 := stripOr item2.item_number
      let norm2 := normalize_item_number num2
      if !(norm1 == "") && !(norm2 == "") && norm1 == norm2 then
        (some (j, item2), 100)
      else if !(num1 == "") && !(num2 == "") && num1 == num2 then
        (some (j, item2), 100)
      else if digit_int_check num1 num2 then
        (some (j, item2), 100)
      else if !(desc1 == "") && !(desc2 == "") then
        let score := ratio (pyUpper desc1) (pyUpper desc2)
        if bestScore < score ∧ (80 : ℚ) ≤ score then
          match_scan ratio desc1 norm1 num1 used (j + 1) rest (some (j, item2)) score
        else
          match_scan ratio desc1 norm1 num1 used (j + 1) rest best bestScore
      else
        match_scan ratio desc1 norm1 num1 used (j + 1) rest best bestScore

/-- The outer loop of `_match_items`: left items in order at index `i`,
accumulating the used right indices. -/
def match_items_go (ratio : String → String → ℚ) (items2 : List LineItem)
    (i : ℕ) : List LineItem → List ℕ → List ItemMatch
  | [], _ => []
  | item1 :: rest, used =>
    let desc1 := stripOr item1.description
    let num1 := stripOr item1.item_number
    let norm1 := normalize_item_number num1
    match match_scan ratio desc1 norm1 num1 used 0 items2 none 0 with
    | (some (j, item2), score) =>
      ⟨i, item1, j, item2, score⟩ :: match_items_go ratio items2 (i + 1) rest (j :: used)
    | (none, _) => match_items_go ratio items2 (i + 1) rest used

/-- Source `MatchingService._match_items`. -/
def match_items (ratio : String → String → ℚ) (items1 items2 : List LineItem) :
    List ItemMatch :=
  match_items_go ratio items2 0 items1 []

/-! ## Severity calculators -/

/-- Source `MatchingService._calculate_quantity_discrepancy_severity`. -/
def calculate_quantity_discrepancy_severity (expected_qty actual_qty : ℚ) : String :=
  if expected_qty = 0 then "medium"
  else
    let diff_percentage := |expected_qty - actual_qty| / expected_qty * 100
    if 50 ≤ diff_percentage then "critical"
    else if 20 ≤ diff_percentage then "high"
    else if 10 ≤ diff_percentage then "medium"
    else "low"

/-- Source `MatchingService._calculate_price_discrepancy_severity`. -/
def calculate_price_discrepancy_severity (expected_price actual_price : ℚ) : String :=
  if expected_price = 0 then "medium"
  else
    let diff_percentage := |expected_price - actual_price| / expected_price * 100
    if 20 ≤ diff_percentage then "critical"
    else if 10 ≤ diff_percentage then "high"
    else if 5 ≤ diff_percentage then "medium"
    else "low"

/-! ## Field comparator -/

/-- The per-matched-pair checks of `_compare_line_items` (quantity, price,
description), in the order the source appends them. `QUANTITY_TOLERANCE`
and `PRICE_TOLERANCE` are both `0.01`; the description threshold is 80. -/
def pair_discrepancies (m : ItemMatch) : List Discrepancy :=
  let po_item := m.left_item
  let invoice_item := m.right_item
  let po_qty := orZeroQ po_item.quantity
  let inv_qty := orZeroQ invoice_item.quantity
  let qtyD : List Discrepancy :=
    if (1 / 100 : ℚ) < |po_qty - inv_qty| then
      [{ dtype := "quantity_mismatch",
         severity := calculate_quantity_discrepancy_severity po_qty inv_qty,
         item_number := pyOrS po_item.item_number invoice_item.item_number,
         description := pyOrS po_item.description invoice_item.description,
         po_value := some (.quantity po_qty),
         invoice_value := some (.quantity inv_qty),
         delivery_value := none }]
    else []
  let po_price := orZeroQ po_item.unit_price
  let inv_price := orZeroQ invoice_item.unit_price
  let priceD : List Discrepancy :=
    if 0 < po_price ∧ 0 < inv_price then
      if (1 / 100 : ℚ) < |po_price - inv_price| then
        [{ dtype := "price_change",
           severity := calculate_price_discrepancy_severity po_price inv_price,
           item_number := pyOrS po_item.item_number invoice_item.item_number,
           description := pyOrS po_item.description invoice_item.description,
           po_value := some (.unitPrice po_price),
           invoice_value := some (.unitPrice inv_price),
           delivery_value := none }]
      else []
    else []
  let descD : List Discrepancy :=
    if m.score < 80 then
      [{ dtype := "description_mismatch",
         severity := "low",
         item_number := pyOrS po_item.item_number invoice_item.item_number,
         description := pyOrS po_item.description invoice_item.description,
         po_value := some (.descriptionOf po_item.description),
         invoice_value := some (.descriptionOf invoice_item.description),
         delivery_value := none }]
    else []
  qtyD ++ priceD ++ descD

/-- One step of the delivery-note section of `_compare_line_items`: for a
matched PO/DN pair with a quantity gap beyond tolerance, mutate the first
existing `quantity_mismatch` discrepancy with the same `item_number`
(filling its `delivery_value`), else append a PO-vs-DN discrepancy. -/
def dn_merge_step (ds : List Discrepancy) (m : ItemMatch) : List Discrepancy :=
  let po_item := m.left_item
  let dn_item := m.right_item
  let po_qty := orZeroQ po_item.quantity
  let dn_qty := orZeroQ dn_item.quantity
  if (1 / 100 : ℚ) < |po_qty - dn_qty| then
    let item_num := po_item.item_number
    let rec go : List Discrepancy → Option (List Discrepancy)
      | [] => none
      | d :: rest =>
        if d.item_number == item_num && d.dtype == "quantity_mismatch" then
          some ({ d with delivery_value := some (.quantity dn_qty) } :: rest)
        else (go rest).map (d :: ·)
    match go ds with
    | some ds2 => ds2
    | none =>
      ds ++ [{ dtype := "quantity_mismatch",
               severity := calculate_quantity_discrepancy_severity po_qty dn_qty,
               item_number := item_num,
               description := po_item.description,
               po_value := some (.quantity po_qty),
               invoice_value := none,
               delivery_value := some (.quantity dn_qty) }]
  else ds

/-- Source `MatchingService._compare_line_items`. -/
def compare_line_items (ratio : String → String → ℚ)
    (po_data invoice_data : ExtractedData) (dn_data : Option ExtractedData) :
    List Discrepancy :=
  let po_items := po_data.line_items.getD []
  let invoice_items := invoice_data.line_items.getD []
  let dn_items : List LineItem :=
    match dn_data with
    | some d => d.line_items.getD []
    | none => []
  let matched_items := match_items ratio po_items invoice_items
  let pairD := matched_items.flatMap pair_discrepancies
  let missingD := po_items.enum.filterMap (fun p =>
    if matched_items.any (fun m => m.left_index == p.1) then none
    else some { dtype := "missing_item",
                severity := "high",
                item_number := p.2.item_number,
                description := p.2.description,
                po_value := some (.wholeItem p.2),
                invoice_value := none,
                delivery_value := none })
  let extraD := invoice_items.enum.filterMap (fun p =>
    if matched_items.any (fun m => m.right_index == p.1) then none
    else some { dtype := "extra_item",
                severity := "medium",
                item_number := p.2.item_number,
                description := p.2.description,
                po_value := none,
                invoice_value := some (.wholeItem p.2),
                delivery_value := none })
  let base := pairD ++ missingD ++ extraD
  if dn_items.isEmpty then base
  else (match_items ratio po_items dn_items).foldl dn_merge_step base

/-! ## Document totals -/

/-- Source `MatchingService._calculate_total_from_line_items`: sum the truthy
`line_total` values. -/
def calculate_total_from_line_items (line_items : Option (List LineItem)) : ℚ :=
  match line_items with
  | none => 0
  | some items =>
    items.foldl (fun total it =>
      if truthyQ it.line_total then total + it.line_total.getD 0 else total) 0

/-- Source `MatchingService._calculate_document_total`: truthy `total_amount`,
else `subtotal + tax_amount` when both truthy, else the line-item sum. -/
def calculate_document_total (data : ExtractedData) : ℚ :=
  if truthyQ data.total_amount then data.total_amount.getD 0
  else if truthyQ data.subtotal && truthyQ data.tax_amount then
    data.subtotal.getD 0 + data.tax_amount.getD 0
  else calculate_total_from_line_items data.line_items

/-! ## Scalar field checks of `_create_matching_result` -/

/-- The currency-mismatch check (lines 233–247 of the source): both codes
truthy and case-insensitively different. -/
def currency_discrepancies (po_data invoice_data : ExtractedData) : List Discrepancy :=
  if truthyS po_data.currency_code && truthyS invoice_data.currency_code then
    if !(pyUpper (po_data.currency_code.getD "") == pyUpper (invoice_data.currency_code.getD "")) then
      [{ dtype := "currency_mismatch",
         severity := "high",
         item_number := none,
         description := some "Currency Mismatch",
         po_value := some (.currencyCode po_data.currency_code),
         invoice_value := some (.currencyCode invoice_data.currency_code),
         delivery_value := none }]
    else []
  else []

/-- The tax-rate check: both rates non-null, tolerance 0.1, `critical`
above 5.0 else `high`. -/
def tax_rate_discrepancies (po_data invoice_data : ExtractedData) : List Discrepancy :=
  match po_data.tax_rate, invoice_data.tax_rate with
  | some pr, some ir =>
    let tax_rate_diff := |pr - ir|
    if (1 / 10 : ℚ) < tax_rate_diff then
      [{ dtype := "tax_rate_mismatch",
         severity := if 5 < tax_rate_diff then "critical" else "high",
         item_number := none,
         description := some "Tax Rate Mismatch",
         po_value := some (.taxRateAmount pr
           (if truthyQ po_data.tax_amount then po_data.tax_amount else none)),
         invoice_value := some (.taxRateAmount ir
           (if truthyQ invoice_data.tax_amount then invoice_data.tax_amount else none)),
         delivery_value := none }]
    else []
  | _, _ => []

/-- The tax-amount check: both amounts non-null; tolerance
`max(1.0, min(po_tax, inv_tax) * 0.01)` when both positive, else `1.0`;
suppressed when either side's extracted tax deviates from its own expected
tax (`subtotal * tax_rate / 100`, computed when both factors are truthy)
by more than the tolerance. -/
def tax_amount_discrepancies (po_data invoice_data : ExtractedData) : List Discrepancy :=
  match po_data.tax_amount, invoice_data.tax_amount with
  | some po_tax, some inv_tax =>
    let tax_amount_diff := |po_tax - inv_tax|
    let po_expected_tax : Option ℚ :=
      if truthyQ po_data.subtotal && truthyQ po_data.tax_rate then
        some (po_data.subtotal.getD 0 * (po_data.tax_rate.getD 0 / 100))
      else none
    let inv_expected_tax : Option ℚ :=
      if truthyQ invoice_data.subtotal && truthyQ invoice_data.tax_rate then
        some (invoice_data.subtotal.getD 0 * (invoice_data.tax_rate.getD 0 / 100))
      else none
    let tolerance : ℚ :=
      if 0 < po_tax ∧ 0 < inv_tax then max 1 (min po_tax inv_tax * (1 / 100)) else 1
    if tolerance < tax_amount_diff then
      let is_calculation_error :=
        (truthyQ po_expected_tax && decide (tolerance < |po_tax - po_expected_tax.getD 0|)) ||
        (truthyQ inv_expected_tax && decide (tolerance < |inv_tax - inv_expected_tax.getD 0|))
      if is_calculation_error then []
      else
        [{ dtype := "tax_amount_mismatch",
           severity := if 100 < tax_amount_diff then "critical"
             else if 10 < tax_amount_diff then "high" else "medium",
           item_number := none,
           description := some "Tax Amount Mismatch",
           po_value := some (.taxAmountRate po_tax
             (if truthyQ po_data.tax_rate then po_data.tax_rate else none)),
           invoice_value := some (.taxAmountRate inv_tax
             (if truthyQ invoice_data.tax_rate then invoice_data.tax_rate else none)),
           delivery_value := none }]
    else []
  | _, _ => []

/-! ## Result assembly and orchestrator -/

/-- Source `MatchingService._calculate_confidence_scores` (its `dn_data` argument
is unused in the source): returns
(`po_number_match`, `vendor_name_match`, `overall`). -/
def calculate_confidence_scores (ratio : String → String → ℚ)
    (po_data invoice_data : ExtractedData) (_dn_data : Option ExtractedData)
    (matched_by : String) : ℚ × ℚ × ℚ :=
  let po_score : ℚ := if po_numbers_match po_data.po_number invoice_data.po_number then 100 else 0
  let vendor_score : ℚ :=
    if truthyS po_data.vendor_name && truthyS invoice_data.vendor_name then
      ratio (pyUpper (pyStrip (po_data.vendor_name.getD "")))
        (pyUpper (pyStrip (invoice_data.vendor_name.getD "")))
    else 0
  let overall := if matched_by == "po_number" then po_score else vendor_score
  (po_score, vendor_score, overall)

/-- Source `MatchingService._create_matching_result`. -/
def create_matching_result (ratio : String → String → ℚ) (workspace_id : String)
    (po : Document) (po_data : ExtractedData)
    (invoice : Document) (invoice_data : ExtractedData)
    (delivery_note : Option Document) (dn_data : Option ExtractedData) :
    MatchingResult :=
  let matched_by :=
    if po_numbers_match po_data.po_number invoice_data.po_number then "po_number"
    else "vendor_name"
  let scores := calculate_confidence_scores ratio po_data invoice_data dn_data matched_by
  let discrepancies :=
    compare_line_items ratio po_data invoice_data dn_data
      ++ currency_discrepancies po_data invoice_data
      ++ tax_rate_discrepancies po_data invoice_data
      ++ tax_amount_discrepancies po_data invoice_data
  let po_total := calculate_document_total po_data
  let invoice_total := calculate_document_total invoice_data
  let dn_total : ℚ := match dn_data with
    | some d => calculate_document_total d
    | none => 0
  let total_difference := |invoice_total - po_total|
  let vn0 := pyOrS po_data.vendor_name invoice_data.vendor_name
  let vendor_name := if truthyS vn0 then vn0.getD "" else "Unknown Vendor"
  { workspace_id := workspace_id,
    po_document_id := po.id,
    invoice_document_id := invoice.id,
    delivery_note_document_id := delivery_note.map (fun d => d.id),
    match_confidence := ⟨scores.1, scores.2.1, scores.2.2, vendor_name⟩,
    matched_by := matched_by,
    total_po_amount := po_total,
    total_invoice_amount := invoice_total,
    total_delivery_amount := if dn_total = 0 then none else some dn_total,
    total_difference := total_difference,
    discrepancies := discrepancies }

/-- The inner PO scan of the second-chance pass of
`match_documents_in_workspace` (lines 97–118): first PO whose extracted
data exists and whose vendor name matches the invoice's. -/
def find_po_by_vendor (ratio : String → String → ℚ)
    (ext : List (String × ExtractedData)) (invoice_data : ExtractedData) :
    List Document → Option (Document × ExtractedData)
  | [] => none
  | po :: rest =>
    match get_extracted_data ext po.id with
    | none => find_po_by_vendor ratio ext invoice_data rest
    | some po_data =>
      if vendor_names_match ratio invoice_data.vendor_name po_data.vendor_name then
        some (po, po_data)
      else find_po_by_vendor ratio ext invoice_data rest

/-- Source `MatchingService.match_documents_in_workspace` on a database snapshot
(the `db.add`/`db.commit` persistence of the computed list is a side
effect outside the computation). A matched invoice always has extracted
data (guaranteed by `find_matching_invoice`), so the `getD {}` default on
its re-lookup is unreachable. -/
def match_documents_in_workspace (ratio : String → String → ℚ)
    (snap : Snapshot) (workspace_id : String) : List MatchingResult :=
  let documents := snap.documents.filter (fun d =>
    d.workspace_id == workspace_id && d.status == "PROCESSED")
  let pos := documents.filter (fun d => decide (d.document_type = DocumentType.purchase_order))
  let invoices := documents.filter (fun d => decide (d.document_type = DocumentType.invoice))
  let delivery_notes := documents.filter (fun d => decide (d.document_type = DocumentType.delivery_note))
  let ext := snap.extracted
  let pass1 := pos.foldl (fun acc po =>
    match get_extracted_data ext po.id with
    | none => acc
    | some po_data =>
      let matched_invoice := find_matching_invoice ratio ext po_data invoices
      let matched_dn := find_matching_delivery_note ratio ext po_data delivery_notes
      match matched_invoice with
      | none => acc
      | some inv =>
        let invoice_data := (get_extracted_data ext inv.id).getD {}
        let dn_data := matched_dn.bind (fun dn => get_extracted_data ext dn.id)
        acc ++ [create_matching_result ratio workspace_id po po_data inv invoice_data
          matched_dn dn_data]) []
  invoices.foldl (fun acc invoice =>
    let already_matched := acc.any (fun mr => mr.invoice_document_id == invoice.id)
    if already_matched then acc
    else
      match get_extracted_data ext invoice.id with
      | none => acc
      | some invoice_data =>
        if truthyS invoice_data.vendor_name then
          match find_po_by_vendor ratio ext invoice_data pos with
          | none => acc
          | some (po, po_data) =>
            let matched_dn := find_matching_delivery_note ratio ext po_data delivery_notes
            let dn_data := matched_dn.bind (fun dn => get_extracted_data ext dn.id)
            acc ++ [create_matching_result ratio workspace_id po po_data invoice invoice_data
              matched_dn dn_data]
        else acc) pass1

/-! ## Helper lemmas on the string primitives -/

theorem pyStrip_data (s : String) :
    (pyStrip s).data = List.rdropWhile isPySpace (s.data.dropWhile isPySpace) := by
  simp [pyStrip, List.rdropWhile]

theorem dropWhile_rdrop_drop (p : Char → Bool) (l : List Char) :
    (List.rdropWhile p (l.dropWhile p)).dropWhile p =
      List.rdropWhile p (l.dropWhile p) := by
  rcases e : List.rdropWhile p (l.dropWhile p) with _ | ⟨c, rest⟩
  · simp
  · have hpre : List.rdropWhile p (l.dropWhile p) <+: l.dropWhile p :=
      List.rdropWhile_prefix p _
    rw [e] at hpre
    obtain ⟨t, ht⟩ := hpre
    have hcons : l.dropWhile p = c :: (rest ++ t) := by
      rw [← ht]; rfl
    have hne : l.dropWhile p ≠ [] := by rw [hcons]; simp
    have hh := List.head_dropWhile_not p l hne
    have hc : (l.dropWhile p).head hne = c := by
      simp only [hcons]; rfl
    rw [hc] at hh
    rw [List.dropWhile_cons_of_neg (by simp [hh])]

theorem pyStrip_idem (s : String) : pyStrip (pyStrip s) = pyStrip s := by
  apply String.ext
  rw [pyStrip_data, pyStrip_data s]
  rw [dropWhile_rdrop_drop, List.rdropWhile_idempotent]

theorem pyStrip_stripOr (x : Option String) : pyStrip (stripOr x) = stripOr x := by
  simp [stripOr, pyStrip_idem]

theorem natToDecimalGo_congr (n : ℕ) : ∀ f1 f2, n < f1 → n < f2 →
    natToDecimalGo f1 n = natToDecimalGo f2 n := by
  induction n using Nat.strong_induction_on with
  | _ n ih =>
    intro f1 f2 h1 h2
    match f1, f2 with
    | a + 1, b + 1 =>
      simp only [natToDecimalGo]
      by_cases h10 : n < 10
      · simp [h10]
      · have hdiv : n / 10 < n := Nat.div_lt_self (by omega) (by omega)
        simp only [h10, if_false]
        rw [ih (n / 10) hdiv a b (by omega) (by omega)]

theorem natToDecimalGo_eq (n f : ℕ) (h : n < f) :
    natToDecimalGo f n = natToDecimal n :=
  natToDecimalGo_congr n f (n + 1) h (by omega)

theorem natToDecimal_ne_nil (n : ℕ) : natToDecimal n ≠ [] := by
  unfold natToDecimal natToDecimalGo
  split <;> simp

theorem string_data_empty : ("" : String).data = [] := rfl

theorem pyIntStr_ne_empty (n : ℤ) : pyIntStr n ≠ "" := by
  have h := natToDecimal_ne_nil n.natAbs
  unfold pyIntStr
  split <;> intro he <;>
    (have hd := congrArg String.data he; rw [string_data_empty] at hd; simp at hd)
  exact h hd

theorem normalize_ne_empty (s : String) (hstrip : pyStrip s = s) (hne : s ≠ "") :
    normalize_item_number s ≠ "" := by
  unfold normalize_item_number
  have hb : (s == "") = false := by simpa using hne
  rw [hb]
  simp only [Bool.false_eq_true, if_false]
  rcases e : pyParseInt (pyStrip s) with _ | n
  · simpa [e, hstrip] using hne
  · simp [e, pyIntStr_ne_empty]

theorem orZeroQ_some (q : ℚ) : orZeroQ (some q) = q := by
  by_cases h : q = 0 <;> simp [orZeroQ, truthyQ, h]

theorem digitChar_ne_zero_of_pos (n : ℕ) (h1 : n < 10) (h2 : n ≠ 0) :
    digitChar n ≠ '0' := by
  interval_cases n <;> revert h2 <;> decide

theorem natToDecimal_head_ne_zero (n : ℕ) :
    n ≠ 0 → (natToDecimal n).head? ≠ some '0' := by
  induction n using Nat.strong_induction_on with
  | _ n ih =>
    intro hn
    unfold natToDecimal natToDecimalGo
    by_cases h10 : n < 10
    · simpa [h10] using digitChar_ne_zero_of_pos n h10 hn
    · have hdiv : n / 10 < n := Nat.div_lt_self (by omega) (by omega)
      simp only [h10, if_false]
      rw [natToDecimalGo_eq (n / 10) n hdiv]
      have hne := natToDecimal_ne_nil (n / 10)
      rcases e : natToDecimal (n / 10) with _ | ⟨c, rest⟩
      · exact absurd e hne
      · have hh := ih (n / 10) hdiv (by omega)
        rw [e] at hh
        simpa [e] using hh

/-! ## C7 — item-number normalization -/

/-- C7: `normalize_item_number` trims surrounding whitespace; when the
trimmed string parses as a Python integer the result is that integer's
decimal form (no leading zero); otherwise the trimmed string is returned
unchanged. Concretely `"013" → "13"`, `"12" → "12"`, `"A001" → "A001"`. -/
theorem C7_normalize_item_number (s : String) :
    (∀ n : ℤ, pyParseInt (pyStrip s) = some n → normalize_item_number s = pyIntStr n) ∧
    (pyParseInt (pyStrip s) = none → normalize_item_number s = pyStrip s) ∧
    (∀ n : ℤ, (pyIntStr n).data.head? ≠ some '0' ∨ pyIntStr n = "0") ∧
    normalize_item_number "013" = "13" ∧
    normalize_item_number "12" = "12" ∧
    normalize_item_number "A001" = "A001" := by
  refine ⟨?_, ?_, ?_, by decide, by decide, by decide⟩
  · intro n h
    unfold normalize_item_number
    by_cases hs : s = ""
    · rw [hs] at h
      rw [show pyParseInt (pyStrip "") = none from by decide] at h
      exact Option.noConfusion h
    · have hb : (s == "") = false := by simpa using hs
      rw [hb]
      simp [h]
  · intro h
    unfold normalize_item_number
    by_cases hs : s = ""
    · subst hs; decide
    · have hb : (s == "") = false := by simpa using hs
      rw [hb]
      simp [h]
  · intro n
    unfold pyIntStr
    split
    · left; simp
    · by_cases hz : n.natAbs = 0
      · right
        rw [hz]
        decide
      · left
        exact natToDecimal_head_ne_zero n.natAbs hz

/-- Witness for C7 at a concrete input. -/
theorem C7_witness :
    pyParseInt (pyStrip "013") = some 13 ∧ normalize_item_number "013" = pyIntStr 13 :=
  ⟨by decide, (C7_normalize_item_number "013").1 13 (by decide)⟩

/-! ## More helper lemmas -/

theorem truthyQ_some_iff (q : ℚ) : truthyQ (some q) = true ↔ q ≠ 0 := by
  simp [truthyQ]

theorem orZeroQ_pos (x : Option ℚ) (h : 0 < orZeroQ x) : x = some (orZeroQ x) := by
  rcases x with _ | q
  · simp [orZeroQ, truthyQ] at h
  · rw [orZeroQ_some]

theorem foldl_line_totals (items : List LineItem) : ∀ a : ℚ,
    items.foldl (fun total it =>
      if truthyQ it.line_total then total + it.line_total.getD 0 else total) a =
      a + (items.map (fun it => orZeroQ it.line_total)).sum := by
  induction items with
  | nil => intro a; simp
  | cons it rest ih =>
    intro a
    rw [List.foldl_cons, List.map_cons, List.sum_cons, ih]
    rcases e : it.line_total with _ | q
    · simp [truthyQ, orZeroQ]
    · by_cases hq : q = 0
      · simp [truthyQ, orZeroQ, hq]
      · have ht : truthyQ (some q) = true := by simp [truthyQ, hq]
        rw [ht, orZeroQ_some]
        simp only [if_true, Option.getD_some]
        ring

/-! ## C8 — determinism of the reconciliation entry point -/

/-- C8: `match_documents_in_workspace` is a pure function of the snapshot:
identical inputs give identical result lists, field for field (the
embedding carries the full `MatchingResult` including the ordered
discrepancy list). -/
theorem C8_reconcile_deterministic (ratio : String → String → ℚ)
    (snap snap2 : Snapshot) (workspace_id : String) (h : snap = snap2) :
    match_documents_in_workspace ratio snap workspace_id =
      match_documents_in_workspace ratio snap2 workspace_id := by
  rw [h]

/-- Witness for C8 at a concrete snapshot. -/
theorem C8_witness :
    match_documents_in_workspace (fun _ _ => 0) ⟨[], []⟩ "W" =
      match_documents_in_workspace (fun _ _ => 0) ⟨[], []⟩ "W" :=
  C8_reconcile_deterministic (fun _ _ => 0) ⟨[], []⟩ ⟨[], []⟩ "W" rfl

/-! ## C10 — the first pass does not consume invoices -/

/-- Concrete workspace for C10: two POs both carrying the invoice's PO
number. -/
def c10_snap : Snapshot :=
  { documents := [⟨"P1", "W", .purchase_order, "PROCESSED"⟩,
                  ⟨"P2", "W", .purchase_order, "PROCESSED"⟩,
                  ⟨"I1", "W", .invoice, "PROCESSED"⟩],
    extracted := [("P1", { po_number := some "PO-1", vendor_name := some "Acme",
                           total_amount := some 100 }),
                  ("P2", { po_number := some "PO-1", vendor_name := some "Acme",
                           total_amount := some 100 }),
                  ("I1", { po_number := some "PO-1", vendor_name := some "Acme",
                           total_amount := some 100 })] }

/-- C10: the first pairing pass does not mark invoices as consumed — on
`c10_snap` both POs match invoice `I1` and two results referencing the
same invoice id are returned; the second-chance pass adds nothing because
`I1` already appears in an earlier result. -/
theorem C10_first_pass_reuses_invoices :
    (match_documents_in_workspace (fun _ _ => 0) c10_snap "W").map
      (fun m => (m.po_document_id, m.invoice_document_id)) = [("P1", "I1"), ("P2", "I1")] := by
  norm_num [match_documents_in_workspace, c10_snap, get_extracted_data,
    find_matching_invoice, find_matching_delivery_note, find_po_by_vendor,
    create_matching_result, po_numbers_match, truthyS, vendor_names_match,
    pyStrip, pyUpper, isPySpace, calculate_confidence_scores,
    compare_line_items, match_items, match_items_go,
    currency_discrepancies, tax_rate_discrepancies, tax_amount_discrepancies,
    calculate_document_total, calculate_total_from_line_items, truthyQ, pyOrS,
    List.foldl, List.filter, List.find?, List.any, List.map, List.flatMap,
    List.enum, List.enumFrom, Option.map, Option.bind, Option.getD]

/-! ## C3 — document total fallback chain -/

/-- Concrete record showing the present-but-zero divergence for C3. -/
def c3_data : ExtractedData :=
  { total_amount := some 0, line_items := some [{ line_total := some 50 }] }

/-- C3 counterexample: `total_amount` is present (equal to `0`) yet the
computed document total is the line-item sum `50`, not `0` — presence alone
does not select the extracted total; Python truthiness also requires it to
be nonzero. -/
theorem C3_counterexample :
    c3_data.total_amount = some 0 ∧ calculate_document_total c3_data = 50 := by
  refine ⟨rfl, ?_⟩
  norm_num [c3_data, calculate_document_total, calculate_total_from_line_items,
    truthyQ, List.foldl]

/-- C3 (amended): the total used for comparison is the extracted
`total_amount` when present and nonzero; otherwise `subtotal + tax_amount`
when both are present and nonzero; otherwise the sum of the line items'
`line_total` values (absent line totals contributing nothing); and the
result's `total_difference` is `|invoice_total − po_total|` of totals so
computed. -/
theorem C3_document_total (d : ExtractedData) (ratio : String → String → ℚ)
    (ws : String) (po inv : Document) (po_data invoice_data : ExtractedData)
    (dn : Option Document) (dn_data : Option ExtractedData) :
    (∀ q : ℚ, d.total_amount = some q → q ≠ 0 → calculate_document_total d = q) ∧
    ((d.total_amount = none ∨ d.total_amount = some 0) →
      ∀ s t : ℚ, d.subtotal = some s → d.tax_amount = some t → s ≠ 0 → t ≠ 0 →
        calculate_document_total d = s + t) ∧
    ((d.total_amount = none ∨ d.total_amount = some 0) →
      (truthyQ d.subtotal && truthyQ d.tax_amount) = false →
      calculate_document_total d = calculate_total_from_line_items d.line_items) ∧
    (∀ items : List LineItem, calculate_total_from_line_items (some items) =
      (items.map (fun it => orZeroQ it.line_total)).sum) ∧
    (create_matching_result ratio ws po po_data inv invoice_data dn dn_data).total_difference =
      |calculate_document_total invoice_data - calculate_document_total po_data| := by
  have hfalse : ∀ x : Option ℚ, (x = none ∨ x = some 0) → truthyQ x = false := by
    rintro x (rfl | rfl) <;> simp [truthyQ]
  refine ⟨?_, ?_, ?_, ?_, ?_⟩
  · intro q hq hqz
    unfold calculate_document_total
    rw [hq]
    simp [truthyQ, hqz]
  · intro h0 s t hs ht hsz htz
    unfold calculate_document_total
    rw [hfalse _ h0, hs, ht]
    simp [truthyQ, hsz, htz]
  · intro h0 hst
    unfold calculate_document_total
    rw [hfalse _ h0, hst]
    simp
  · intro items
    simp only [calculate_total_from_line_items]
    rw [foldl_line_totals items 0]
    simp
  · rfl

/-- Witness for C3 at a concrete record. -/
theorem C3_witness :
    calculate_document_total { total_amount := some 5 } = 5 :=
  (C3_document_total { total_amount := some 5 } (fun _ _ => 0) "W"
      ⟨"P", "W", .purchase_order, "PROCESSED"⟩ ⟨"I", "W", .invoice, "PROCESSED"⟩
      {} {} none none).1 5 rfl (by norm_num)

/-! ## C2 — null fields in line-item comparison -/

/-- Concrete matched pair for C2: PO quantity `10` against a null invoice
quantity. -/
def c2_po_data : ExtractedData :=
  { line_items := some [{ item_number := some "1", quantity := some 10 }] }

/-- Invoice side of the C2 counterexample (null quantity). -/
def c2_inv_data : ExtractedData :=
  { line_items := some [{ item_number := some "1", quantity := none }] }

/-- C2 counterexample: a matched pair whose invoice quantity is null is
NOT skipped — the null is coerced to `0` and a `quantity_mismatch` of
severity `critical` is emitted. -/
theorem C2_counterexample :
    c2_inv_data.line_items = some [{ item_number := some "1", quantity := none }] ∧
    (compare_line_items (fun _ _ => 0) c2_po_data c2_inv_data none).map
      (fun d => (d.dtype, d.severity)) = [("quantity_mismatch", "critical")] := by
  refine ⟨rfl, ?_⟩
  norm_num [compare_line_items, c2_po_data, c2_inv_data, match_items, match_items_go,
    match_scan, pair_discrepancies, dn_merge_step, normalize_item_number,
    digit_int_check, stripOr, pyStrip, pyUpper, isPySpace, pyIsdigit, pyParseInt,
    parseDigits, digitsCore, pyIntStr, natToDecimal, natToDecimalGo, digitChar,
    orZeroQ, truthyQ, truthyS, pyOrS,
    calculate_quantity_discrepancy_severity, calculate_price_discrepancy_severity,
    List.foldl, List.filter, List.find?, List.any, List.map, List.flatMap,
    List.enum, List.enumFrom, List.filterMap, Option.map, Option.bind, Option.getD]

/-- Shared shape lemma: a `quantity_mismatch` entry appears among a matched
pair's discrepancies exactly when the coerced quantities differ beyond the
tolerance. -/
theorem pair_qty_mem (m : ItemMatch) :
    (∃ d ∈ pair_discrepancies m, d.dtype = "quantity_mismatch") ↔
      (1 / 100 : ℚ) < |orZeroQ m.left_item.quantity - orZeroQ m.right_item.quantity| := by
  unfold pair_discrepancies
  by_cases h1 : (100 : ℚ)⁻¹ <
      |orZeroQ m.left_item.quantity - orZeroQ m.right_item.quantity| <;>
  by_cases h2 : 0 < orZeroQ m.left_item.unit_price ∧ 0 < orZeroQ m.right_item.unit_price <;>
  by_cases h3 : (100 : ℚ)⁻¹ <
      |orZeroQ m.left_item.unit_price - orZeroQ m.right_item.unit_price| <;>
  by_cases h4 : m.score < 80 <;>
  simp [h1, h2, h3, h4]

/-- Shared shape lemma: a `price_change` entry appears among a matched
pair's discrepancies exactly when both coerced unit prices are positive
and differ beyond the tolerance. -/
theorem pair_price_mem (m : ItemMatch) :
    (∃ d ∈ pair_discrepancies m, d.dtype = "price_change") ↔
      ((0 < orZeroQ m.left_item.unit_price ∧ 0 < orZeroQ m.right_item.unit_price) ∧
        (1 / 100 : ℚ) < |orZeroQ m.left_item.unit_price - orZeroQ m.right_item.unit_price|) := by
  unfold pair_discrepancies
  by_cases h1 : (100 : ℚ)⁻¹ <
      |orZeroQ m.left_item.quantity - orZeroQ m.right_item.quantity| <;>
  by_cases h2 : 0 < orZeroQ m.left_item.unit_price ∧ 0 < orZeroQ m.right_item.unit_price <;>
  by_cases h3 : (100 : ℚ)⁻¹ <
      |orZeroQ m.left_item.unit_price - orZeroQ m.right_item.unit_price| <;>
  by_cases h4 : m.score < 80 <;>
  simp [h1, h2, h3, h4]

/-- Shared shape lemma: the severity carried by a `quantity_mismatch`
entry of a matched pair. -/
theorem pair_qty_severity (m : ItemMatch) :
    ∀ d ∈ pair_discrepancies m, d.dtype = "quantity_mismatch" →
      d.severity = calculate_quantity_discrepancy_severity
        (orZeroQ m.left_item.quantity) (orZeroQ m.right_item.quantity) := by
  unfold pair_discrepancies
  by_cases h1 : (100 : ℚ)⁻¹ <
      |orZeroQ m.left_item.quantity - orZeroQ m.right_item.quantity| <;>
  by_cases h2 : 0 < orZeroQ m.left_item.unit_price ∧ 0 < orZeroQ m.right_item.unit_price <;>
  by_cases h3 : (100 : ℚ)⁻¹ <
      |orZeroQ m.left_item.unit_price - orZeroQ m.right_item.unit_price| <;>
  by_cases h4 : m.score < 80 <;>
  simp [h1, h2, h3, h4]

/-- C2 (amended): for a matched pair, a price-change check requires both
unit prices to be non-null and positive (a null or zero unit price skips
it); a null quantity is NOT skipped but coerced to `0`, and a
`quantity_mismatch` is emitted iff the coerced quantities differ by more
than `0.01`. The comparison itself is total (never raises). -/
theorem C2_null_field_handling (m : ItemMatch) :
    (∀ d ∈ pair_discrepancies m, d.dtype = "price_change" →
      (∃ p, m.left_item.unit_price = some p ∧ 0 < p) ∧
      (∃ p, m.right_item.unit_price = some p ∧ 0 < p)) ∧
    ((∃ d ∈ pair_discrepancies m, d.dtype = "quantity_mismatch") ↔
      (1 / 100 : ℚ) < |orZeroQ m.left_item.quantity - orZeroQ m.right_item.quantity|) := by
  constructor
  · intro d hd hdt
    have h := (pair_price_mem m).mp ⟨d, hd, hdt⟩
    exact ⟨⟨orZeroQ m.left_item.unit_price, orZeroQ_pos _ h.1.1, h.1.1⟩,
      ⟨orZeroQ m.right_item.unit_price, orZeroQ_pos _ h.1.2, h.1.2⟩⟩
  · exact pair_qty_mem m

/-- Witness for C2 at a concrete matched pair with a null quantity. -/
theorem C2_witness :
    ∃ d ∈ pair_discrepancies ⟨0, { quantity := some 10 }, 0, { quantity := none }, 100⟩,
      d.dtype = "quantity_mismatch" :=
  (C2_null_field_handling _).2.mpr (by norm_num [orZeroQ, truthyQ])

/-! ## C4 — quantity tolerance and severity -/

/-- C4: for a matched pair with both quantities present, a
`quantity_mismatch` is emitted iff `|po.qty − inv.qty| > 0.01`; its
severity comes from the percentage difference relative to `po.qty`
(`medium` when `po.qty = 0`): `critical` at ≥ 50 %, `high` at ≥ 20 %,
`medium` at ≥ 10 %, else `low`. A difference of exactly 0.01 is not
flagged, 0.02 on base 1.0 is `low`, and exactly 50 % is `critical`. -/
theorem C4_quantity_tolerance (m : ItemMatch) (pq iq : ℚ)
    (hp : m.left_item.quantity = some pq) (hi : m.right_item.quantity = some iq) :
    ((∃ d ∈ pair_discrepancies m, d.dtype = "quantity_mismatch") ↔
      (1 / 100 : ℚ) < |pq - iq|) ∧
    (∀ d ∈ pair_discrepancies m, d.dtype = "quantity_mismatch" →
      d.severity = if pq = 0 then "medium"
        else if 50 ≤ |pq - iq| / pq * 100 then "critical"
        else if 20 ≤ |pq - iq| / pq * 100 then "high"
        else if 10 ≤ |pq - iq| / pq * 100 then "medium" else "low") ∧
    pair_discrepancies ⟨0, { quantity := some 1 }, 0, { quantity := some (101/100) }, 100⟩ = [] ∧
    (pair_discrepancies ⟨0, { quantity := some 1 }, 0, { quantity := some (102/100) }, 100⟩).map
      (fun d => (d.dtype, d.severity)) = [("quantity_mismatch", "low")] ∧
    (pair_discrepancies ⟨0, { quantity := some 10 }, 0, { quantity := some 5 }, 100⟩).map
      (fun d => (d.dtype, d.severity)) = [("quantity_mismatch", "critical")] := by
  refine ⟨?_, ?_, ?_, ?_, ?_⟩
  · rw [pair_qty_mem m, hp, hi, orZeroQ_some, orZeroQ_some]
  · intro d hd hdt
    rw [pair_qty_severity m d hd hdt, hp, hi, orZeroQ_some, orZeroQ_some]
    rfl
  · norm_num [pair_discrepancies, orZeroQ, truthyQ, abs_of_nonneg,
      calculate_quantity_discrepancy_severity, calculate_price_discrepancy_severity]
  · norm_num [pair_discrepancies, orZeroQ, truthyQ, abs_of_nonneg,
      calculate_quantity_discrepancy_severity, calculate_price_discrepancy_severity]
  · norm_num [pair_discrepancies, orZeroQ, truthyQ, abs_of_nonneg,
      calculate_quantity_discrepancy_severity, calculate_price_discrepancy_severity]

/-- Witness for C4 at a concrete matched pair. -/
theorem C4_witness :
    ∃ d ∈ pair_discrepancies ⟨0, { quantity := some 10 }, 0, { quantity := some 5 }, 100⟩,
      d.dtype = "quantity_mismatch" :=
  (C4_quantity_tolerance ⟨0, { quantity := some 10 }, 0, { quantity := some 5 }, 100⟩
    10 5 rfl rfl).1.mpr (by norm_num)

/-! ## C5 — tax-amount mismatch -/

/-- The conditional tolerance of the source equals the claim's closed
formula `max(1, 0.01 · min(po_tax, inv_tax))` for all values. -/
theorem tax_tolerance_eq (pt it : ℚ) :
    (if 0 < pt ∧ 0 < it then max 1 (min pt it * (1 / 100)) else (1 : ℚ)) =
      max 1 (min pt it * (1 / 100)) := by
  split
  · rfl
  · rename_i h
    have hmin : min pt it ≤ 0 := by
      rcases not_and_or.mp h with h1 | h1
      · exact le_trans (min_le_left _ _) (not_lt.mp h1)
      · exact le_trans (min_le_right _ _) (not_lt.mp h1)
    have hle : min pt it * (1 / 100) ≤ 1 := by nlinarith
    exact (max_eq_left hle).symm

/-- The source's truthiness-guarded expected-tax deviation test, as the
existence of nonzero subtotal and rate whose implied tax deviates beyond
the tolerance. -/
theorem calc_error_iff (sub rate : Option ℚ) (tax tol : ℚ) :
    ((truthyQ (if truthyQ sub && truthyQ rate then
        some (sub.getD 0 * (rate.getD 0 / 100)) else none) &&
      decide (tol < |tax - (if truthyQ sub && truthyQ rate then
        some (sub.getD 0 * (rate.getD 0 / 100)) else none).getD 0|)) = true) ↔
    (∃ s r : ℚ, sub = some s ∧ rate = some r ∧ s ≠ 0 ∧ r ≠ 0 ∧
      tol < |tax - s * (r / 100)|) := by
  by_cases hc : (truthyQ sub && truthyQ rate) = true
  · obtain ⟨hs, hr⟩ := Bool.and_eq_true_iff.mp hc
    rcases sub with _ | s
    · simp [truthyQ] at hs
    rcases rate with _ | r
    · simp [truthyQ] at hr
    have hs0 : s ≠ 0 := by simpa [truthyQ] using hs
    have hr0 : r ≠ 0 := by simpa [truthyQ] using hr
    have hv : s * (r / 100) ≠ 0 :=
      mul_ne_zero hs0 (div_ne_zero hr0 (by norm_num))
    rw [if_pos hc]
    simp only [Option.getD_some]
    rw [Bool.and_eq_true]
    constructor
    · rintro ⟨-, h2⟩
      exact ⟨s, r, rfl, rfl, hs0, hr0, of_decide_eq_true h2⟩
    · rintro ⟨s2, r2, hs2, hr2, -, -, h⟩
      obtain rfl : s2 = s := by injection hs2 with h0; exact h0.symm
      obtain rfl : r2 = r := by injection hr2 with h0; exact h0.symm
      refine ⟨?_, decide_eq_true h⟩
      simpa [truthyQ] using hv
  · rw [if_neg hc]
    constructor
    · intro h
      rw [Bool.and_eq_true] at h
      simpa [truthyQ] using h.1
    · rintro ⟨s, r, hs2, hr2, hs0, hr0, -⟩
      exfalso
      apply hc
      rw [hs2, hr2]
      simp [truthyQ, hs0, hr0]

/-- Concrete PO record for the C5 counterexample: subtotal present but
zero. -/
def c5_po_data : ExtractedData :=
  { subtotal := some 0, tax_rate := some 10, tax_amount := some 50 }

/-- Concrete invoice record for the C5 counterexample. -/
def c5_inv_data : ExtractedData :=
  { tax_amount := some 10 }

/-- C5 counterexample: the PO has `subtotal = 0` and `tax_rate = 10` (both
present), extracted tax 50; by the claim the PO's expected tax
`0 · 10/100 = 0` deviates from 50 beyond the tolerance 1, so the
discrepancy should be suppressed — yet the code emits it, because Python
truthiness on the zero subtotal skips the expected-tax computation. -/
theorem C5_counterexample :
    c5_po_data.subtotal = some 0 ∧ c5_po_data.tax_rate = some 10 ∧
    max 1 (min 50 10 * (1 / 100)) < |(50 : ℚ) - 0 * (10 / 100)| ∧
    (tax_amount_discrepancies c5_po_data c5_inv_data).map (fun d => (d.dtype, d.severity)) =
      [("tax_amount_mismatch", "high")] := by
  refine ⟨rfl, rfl, by norm_num, ?_⟩
  norm_num [tax_amount_discrepancies, c5_po_data, c5_inv_data, truthyQ, abs_of_nonneg]

/-- C5 (amended): with both tax amounts present, a `tax_amount_mismatch`
is emitted iff the difference exceeds `max(1, 0.01 · min(po_tax, inv_tax))`
and neither side has a nonzero subtotal and nonzero tax rate whose implied
tax (`subtotal · tax_rate / 100`) deviates from that side's extracted tax
beyond the tolerance (a present-but-zero subtotal or rate does not
suppress); severity is `critical` above 100, `high` above 10, else
`medium`. -/
theorem C5_tax_amount (po_data invoice_data : ExtractedData) (pt it : ℚ)
    (hp : po_data.tax_amount = some pt) (hi : invoice_data.tax_amount = some it) :
    ((tax_amount_discrepancies po_data invoice_data ≠ []) ↔
      (max 1 (min pt it * (1 / 100)) < |pt - it| ∧
        ¬ ((∃ s r : ℚ, po_data.subtotal = some s ∧ po_data.tax_rate = some r ∧
              s ≠ 0 ∧ r ≠ 0 ∧
              max 1 (min pt it * (1 / 100)) < |pt - s * (r / 100)|) ∨
           (∃ s r : ℚ, invoice_data.subtotal = some s ∧ invoice_data.tax_rate = some r ∧
              s ≠ 0 ∧ r ≠ 0 ∧
              max 1 (min pt it * (1 / 100)) < |it - s * (r / 100)|)))) ∧
    (∀ d ∈ tax_amount_discrepancies po_data invoice_data,
      d.dtype = "tax_amount_mismatch" ∧
      d.severity = (if 100 < |pt - it| then "critical"
        else if 10 < |pt - it| then "high" else "medium")) := by
  unfold tax_amount_discrepancies
  rw [hp, hi]
  simp only [tax_tolerance_eq]
  by_cases h1 : max 1 (min pt it * (1 / 100)) < |pt - it|
  case neg =>
    rw [if_neg h1]
    constructor
    · constructor
      · intro h; exact absurd rfl h
      · rintro ⟨h2, -⟩; exact absurd h2 h1
    · intro d hd; exact absurd hd (List.not_mem_nil d)
  rw [if_pos h1]
  by_cases h2 :
      ((truthyQ (if truthyQ po_data.subtotal && truthyQ po_data.tax_rate then
              some (po_data.subtotal.getD 0 * (po_data.tax_rate.getD 0 / 100)) else none) &&
            decide (max 1 (min pt it * (1 / 100)) <
              |pt - (if truthyQ po_data.subtotal && truthyQ po_data.tax_rate then
                some (po_data.subtotal.getD 0 * (po_data.tax_rate.getD 0 / 100)) else none).getD 0|)) ||
           (truthyQ (if truthyQ invoice_data.subtotal && truthyQ invoice_data.tax_rate then
              some (invoice_data.subtotal.getD 0 * (invoice_data.tax_rate.getD 0 / 100)) else none) &&
            decide (max 1 (min pt it * (1 / 100)) <
              |it - (if truthyQ invoice_data.subtotal && truthyQ invoice_data.tax_rate then
                some (invoice_data.subtotal.getD 0 * (invoice_data.tax_rate.getD 0 / 100)) else none).getD 0|))) = true
  · rw [if_pos h2]
    constructor
    · simp only [ne_eq, not_true_eq_false, false_iff, not_and, not_not]
      intro _
      rw [Bool.or_eq_true] at h2
      rcases h2 with h3 | h3
      · exact Or.inl ((calc_error_iff _ _ _ _).mp h3)
      · exact Or.inr ((calc_error_iff _ _ _ _).mp h3)
    · intro d hd; exact absurd hd (List.not_mem_nil d)
  · rw [if_neg h2]
    constructor
    · constructor
      · intro _
        refine ⟨h1, ?_⟩
        rintro (h3 | h3)
        · exact h2 (by
            rw [Bool.or_eq_true]
            exact Or.inl ((calc_error_iff _ _ _ _).mpr h3))
        · exact h2 (by
            rw [Bool.or_eq_true]
            exact Or.inr ((calc_error_iff _ _ _ _).mpr h3))
      · intro _
        simp
    · intro d hd
      rw [List.mem_singleton] at hd
      subst hd
      exact ⟨rfl, rfl⟩

/-! ## C6 — greedy line-item matcher: helper lemmas -/

theorem digit_not_space (c : Char) (h : isDigitChar c = true) : isPySpace c = false := by
  by_contra hne
  rw [Bool.not_eq_false] at hne
  unfold isPySpace at hne
  simp only [Bool.or_eq_true, decide_eq_true_eq, or_assoc] at hne
  rcases hne with h1 | h1 | h1 | h1 | h1 | h1 <;> subst h1 <;>
    exact absurd h (by decide)

theorem dropWhile_digits (l : List Char) (h : l.all isDigitChar = true) :
    l.dropWhile isPySpace = l := by
  rcases l with _ | ⟨c, cs⟩
  · simp
  · rw [List.all_cons, Bool.and_eq_true] at h
    rw [List.dropWhile_cons_of_neg]
    simp [digit_not_space c h.1]

theorem pyStrip_of_digits (s : String) (h : s.data.all isDigitChar = true) :
    pyStrip s = s := by
  apply String.ext
  rw [pyStrip_data, dropWhile_digits _ h, List.rdropWhile,
    dropWhile_digits _ (by rwa [List.all_reverse]), List.reverse_reverse]

theorem pyIsdigit_ne_empty (s : String) (h : pyIsdigit s = true) : s ≠ "" := by
  unfold pyIsdigit at h
  rw [Bool.and_eq_true] at h
  intro he
  subst he
  simp at h

theorem pyIsdigit_strip (s : String) (h : pyIsdigit s = true) : pyStrip s = s := by
  unfold pyIsdigit at h
  rw [Bool.and_eq_true] at h
  exact pyStrip_of_digits s h.2

theorem normalize_of_parse (s : String) (hne : s ≠ "") (hstrip : pyStrip s = s)
    (a : ℤ) (hp : pyParseInt s = some a) : normalize_item_number s = pyIntStr a := by
  unfold normalize_item_number
  have hb : (s == "") = false := by simpa using hne
  rw [hb]
  simp only [Bool.false_eq_true, if_false, hstrip, hp]

/-- The Bool computed by the second item-number check of the scan. -/
theorem check2_subsume (n1 n2 : String)
    (hs1 : pyStrip n1 = n1) (hs2 : pyStrip n2 = n2)
    (h : (!(n1 == "") && !(n2 == "") && (n1 == n2)) = true) :
    (!(normalize_item_number n1 == "") && !(normalize_item_number n2 == "") &&
      (normalize_item_number n1 == normalize_item_number n2)) = true := by
  simp only [Bool.and_eq_true, Bool.not_eq_true', beq_eq_false_iff_ne, ne_eq,
    beq_iff_eq] at h ⊢
  obtain ⟨⟨h1, h2⟩, h3⟩ := h
  subst h3
  exact ⟨⟨normalize_ne_empty n1 hs1 h1, normalize_ne_empty n1 hs1 h1⟩, rfl⟩

/-- The Bool computed by the third (digit) item-number check of the scan. -/
theorem check3_subsume (n1 n2 : String) (h : digit_int_check n1 n2 = true) :
    (!(normalize_item_number n1 == "") && !(normalize_item_number n2 == "") &&
      (normalize_item_number n1 == normalize_item_number n2)) = true := by
  unfold digit_int_check at h
  rcases hd1 : (if pyIsdigit n1 then pyParseInt n1 else none) with _ | a
  · rw [hd1] at h; simp at h
  rcases hd2 : (if pyIsdigit n2 then pyParseInt n2 else none) with _ | b
  · rw [hd1, hd2] at h; simp at h
  rw [hd1, hd2] at h
  have hab : a = b := by simpa using h
  subst hab
  have h1 : pyIsdigit n1 = true ∧ pyParseInt n1 = some a := by
    by_cases hb : pyIsdigit n1 = true
    · rw [if_pos hb] at hd1; exact ⟨hb, hd1⟩
    · rw [if_neg hb] at hd1; exact Option.noConfusion hd1
  have h2 : pyIsdigit n2 = true ∧ pyParseInt n2 = some a := by
    by_cases hb : pyIsdigit n2 = true
    · rw [if_pos hb] at hd2; exact ⟨hb, hd2⟩
    · rw [if_neg hb] at hd2; exact Option.noConfusion hd2
  have e1 : normalize_item_number n1 = pyIntStr a :=
    normalize_of_parse n1 (pyIsdigit_ne_empty n1 h1.1) (pyIsdigit_strip n1 h1.1) a h1.2
  have e2 : normalize_item_number n2 = pyIntStr a :=
    normalize_of_parse n2 (pyIsdigit_ne_empty n2 h2.1) (pyIsdigit_strip n2 h2.1) a h2.2
  simp only [Bool.and_eq_true, Bool.not_eq_true', beq_eq_false_iff_ne, ne_eq, beq_iff_eq]
  exact ⟨⟨e1 ▸ pyIntStr_ne_empty a, e2 ▸ pyIntStr_ne_empty a⟩, by rw [e1, e2]⟩

/-! ## C6 — spec-side matcher (second definition, following the spec's
words, for the refinement comparison) -/

/-- Spec §4.2 priority-1 criterion:
`normalize_item_number(left.item_number) == normalize_item_number(right.item_number)`
and both non-empty. -/
def spec_num_match (it1 it2 : LineItem) : Bool :=
  let n1 := normalize_item_number (stripOr it1.item_number)
  let n2 := normalize_item_number (stripOr it2.item_number)
  !(n1 == "") && !(n2 == "") && n1 == n2

/-- Spec §4.2 fuzzy description score, with the edge case "empty
descriptions never fuzzy-match (score forced to 0)". -/
def spec_fuzzy (ratio : String → String → ℚ) (it1 it2 : LineItem) : ℚ :=
  let d1 := stripOr it1.description
  let d2 := stripOr it2.description
  if d1 == "" || d2 == "" then 0 else ratio (pyUpper d1) (pyUpper d2)

/-- Spec §4.2 tie-break accumulator: keep the best-so-far, replacing it
only on a strictly higher similarity (so ties resolve to the first right
item scanned). -/
def spec_pick (ratio : String → String → ℚ) (it1 : LineItem)
    (best : Option (ℕ × LineItem × ℚ)) (p : ℕ × LineItem) : Option (ℕ × LineItem × ℚ) :=
  match best with
  | none => some (p.1, p.2, spec_fuzzy ratio it1 p.2)
  | some (_, _, s0) =>
    if s0 < spec_fuzzy ratio it1 p.2 then some (p.1, p.2, spec_fuzzy ratio it1 p.2)
    else best

/-- Spec §4.2 selection for one left item: the first unused right item
with an equal non-empty normalized item number pairs immediately at score
100; only otherwise the unused right item of highest description
similarity ≥ 80, ties resolving to the first right item in index order. -/
def spec_select (ratio : String → String → ℚ) (used : List ℕ) (it1 : LineItem)
    (items2 : List LineItem) : Option (ℕ × LineItem × ℚ) :=
  let cands := items2.enum.filter (fun p => decide (p.1 ∉ used))
  match cands.find? (fun p => spec_num_match it1 p.2) with
  | some p => some (p.1, p.2, 100)
  | none =>
    (cands.filter (fun p => decide ((80 : ℚ) ≤ spec_fuzzy ratio it1 p.2))).foldl
      (spec_pick ratio it1) none

/-- Spec §4.2 greedy loop: left items in order, consumed right indices
excluded from later consideration. -/
def spec_match_items_go (ratio : String → String → ℚ) (items2 : List LineItem)
    (i : ℕ) : List LineItem → List ℕ → List ItemMatch
  | [], _ => []
  | it1 :: rest, used =>
    match spec_select ratio used it1 items2 with
    | some (j, it2, s) =>
      ⟨i, it1, j, it2, s⟩ :: spec_match_items_go ratio items2 (i + 1) rest (j :: used)
    | none => spec_match_items_go ratio items2 (i + 1) rest used

/-- The spec's line-item matcher (claim side of the C6 refinement). -/
def spec_match_items (ratio : String → String → ℚ) (items1 items2 : List LineItem) :
    List ItemMatch :=
  spec_match_items_go ratio items2 0 items1 []

/-- The disjunction of the three item-number checks of the source's inner
scan, as a function of the right item. -/
def code_num_match (norm1 num1 : String) (it2 : LineItem) : Bool :=
  let num2 := stripOr it2.item_number
  let norm2 := normalize_item_number num2
  (!(norm1 == "") && !(norm2 == "") && norm1 == norm2) ||
  ((!(num1 == "") && !(num2 == "") && num1 == num2) ||
   digit_int_check num1 num2)

/-- On stripped left fields the three checks collapse to the spec's
priority-1 criterion. -/
theorem code_num_match_eq_spec (it1 it2 : LineItem) :
    code_num_match (normalize_item_number (stripOr it1.item_number))
      (stripOr it1.item_number) it2 = spec_num_match it1 it2 := by
  unfold code_num_match spec_num_match
  dsimp only
  rcases hc1 : (!(normalize_item_number (stripOr it1.item_number) == "") &&
      !(normalize_item_number (stripOr it2.item_number) == "") &&
      (normalize_item_number (stripOr it1.item_number) ==
        normalize_item_number (stripOr it2.item_number))) with _ | _
  · rw [Bool.false_or]
    rcases hc2 : (!(stripOr it1.item_number == "") && !(stripOr it2.item_number == "") &&
        (stripOr it1.item_number == stripOr it2.item_number)) with _ | _
    · rcases hc3 : digit_int_check (stripOr it1.item_number) (stripOr it2.item_number)
        with _ | _
      · rfl
      · exfalso
        have hh := check3_subsume (stripOr it1.item_number) (stripOr it2.item_number) hc3
        rw [hc1] at hh
        exact Bool.false_ne_true hh
    · exfalso
      have hh := check2_subsume (stripOr it1.item_number) (stripOr it2.item_number)
        (pyStrip_stripOr _) (pyStrip_stripOr _) hc2
      rw [hc1] at hh
      exact Bool.false_ne_true hh
  · rw [Bool.true_or]

/-- The fuzzy-description step of the inner scan, as a fold step over
indexed candidates. -/
def fuzz_step (ratio : String → String → ℚ) (desc1 : String) (used : List ℕ)
    (st : Option (ℕ × LineItem) × ℚ) (p : ℕ × LineItem) : Option (ℕ × LineItem) × ℚ :=
  if p.1 ∈ used then st
  else
    let desc2 := stripOr p.2.description
    if !(desc1 == "") && !(desc2 == "") then
      let score := ratio (pyUpper desc1) (pyUpper desc2)
      if st.2 < score ∧ (80 : ℚ) ≤ score then (some p, score) else st
    else st

theorem match_scan_num_found (ratio : String → String → ℚ)
    (desc1 norm1 num1 : String) (used : List ℕ) :
    ∀ (l : List LineItem) (j : ℕ) (best : Option (ℕ × LineItem)) (bs : ℚ)
      (p : ℕ × LineItem),
    ((List.enumFrom j l).filter (fun q => decide (q.1 ∉ used))).find?
        (fun q => code_num_match norm1 num1 q.2) = some p →
    match_scan ratio desc1 norm1 num1 used j l best bs = (some p, 100) := by
  intro l
  induction l with
  | nil => intro j best bs p h; simp at h
  | cons it2 rest ih =>
    intro j best bs p h
    rw [List.enumFrom_cons, List.filter_cons] at h
    rw [match_scan]
    dsimp only
    by_cases hj : j ∈ used
    · rw [if_pos hj]
      have hd : (decide ((j, it2).1 ∉ used)) = false := by simp [hj]
      rw [hd] at h
      simp only [Bool.false_eq_true, if_false] at h
      exact ih (j + 1) best bs p h
    · rw [if_neg hj]
      have hd : (decide ((j, it2).1 ∉ used)) = true := by simp [hj]
      rw [hd] at h
      simp only [if_true] at h
      rcases hc : code_num_match norm1 num1 it2 with _ | _
      · rw [List.find?_cons_of_neg _ (by simpa using hc)] at h
        unfold code_num_match at hc
        dsimp only at hc
        rw [Bool.or_eq_false_iff] at hc
        obtain ⟨hc1, hc23⟩ := hc
        rw [Bool.or_eq_false_iff] at hc23
        obtain ⟨hc2, hc3⟩ := hc23
        rw [hc1]
        simp only [Bool.false_eq_true, if_false]
        rw [hc2]
        simp only [Bool.false_eq_true, if_false]
        rw [hc3]
        simp only [Bool.false_eq_true, if_false]
        split
        · split
          · exact ih (j + 1) _ _ p h
          · exact ih (j + 1) _ _ p h
        · exact ih (j + 1) _ _ p h
      · rw [List.find?_cons_of_pos _ (by simpa using hc)] at h
        obtain rfl : p = (j, it2) := by injection h with h0; exact h0.symm
        unfold code_num_match at hc
        dsimp only at hc
        rw [Bool.or_eq_true] at hc
        rcases hc with hc1 | hc23
        · rw [hc1]; rfl
        · rw [Bool.or_eq_true] at hc23
          rcases hc23 with hc2 | hc3
          · rcases hb1 : (!(norm1 == "") &&
                !(normalize_item_number (stripOr it2.item_number) == "") &&
                (norm1 == normalize_item_number (stripOr it2.item_number))) with _ | _
            · simp only [Bool.false_eq_true, if_false]
              rw [hc2]; rfl
            · rfl
          · rcases hb1 : (!(norm1 == "") &&
                !(normalize_item_number (stripOr it2.item_number) == "") &&
                (norm1 == normalize_item_number (stripOr it2.item_number))) with _ | _
            · simp only [Bool.false_eq_true, if_false]
              rcases hb2 : (!(num1 == "") && !(stripOr it2.item_number == "") &&
                  (num1 == stripOr it2.item_number)) with _ | _
              · simp only [Bool.false_eq_true, if_false]
                rw [hc3]; rfl
              · rfl
            · rfl

theorem match_scan_no_num (ratio : String → String → ℚ)
    (desc1 norm1 num1 : String) (used : List ℕ) :
    ∀ (l : List LineItem) (j : ℕ) (best : Option (ℕ × LineItem)) (bs : ℚ),
    ((List.enumFrom j l).filter (fun q => decide (q.1 ∉ used))).find?
        (fun q => code_num_match norm1 num1 q.2) = none →
    match_scan ratio desc1 norm1 num1 used j l best bs =
      (List.enumFrom j l).foldl (fuzz_step ratio desc1 used) (best, bs) := by
  intro l
  induction l with
  | nil => intro j best bs _; rfl
  | cons it2 rest ih =>
    intro j best bs h
    rw [List.enumFrom_cons, List.filter_cons] at h
    rw [List.enumFrom_cons, List.foldl_cons, match_scan]
    dsimp only
    by_cases hj : j ∈ used
    · rw [if_pos hj]
      have hd : (decide ((j, it2).1 ∉ used)) = false := by simp [hj]
      rw [hd] at h
      simp only [Bool.false_eq_true, if_false] at h
      rw [show fuzz_step ratio desc1 used (best, bs) (j, it2) = (best, bs) from by
        unfold fuzz_step; rw [if_pos hj]]
      exact ih (j + 1) best bs h
    · rw [if_neg hj]
      have hd : (decide ((j, it2).1 ∉ used)) = true := by simp [hj]
      rw [hd] at h
      simp only [if_true] at h
      have hc : code_num_match norm1 num1 it2 = false := by
        rcases hcc : code_num_match norm1 num1 it2 with _ | _
        · rfl
        · rw [List.find?_cons_of_pos _ (by simpa using hcc)] at h
          exact Option.noConfusion h
      rw [List.find?_cons_of_neg _ (by simpa using hc)] at h
      unfold code_num_match at hc
      dsimp only at hc
      rw [Bool.or_eq_false_iff] at hc
      obtain ⟨hc1, hc23⟩ := hc
      rw [Bool.or_eq_false_iff] at hc23
      obtain ⟨hc2, hc3⟩ := hc23
      rw [hc1]
      simp only [Bool.false_eq_true, if_false]
      rw [hc2]
      simp only [Bool.false_eq_true, if_false]
      rw [hc3]
      simp only [Bool.false_eq_true, if_false]
      rw [show fuzz_step ratio desc1 used (best, bs) (j, it2) =
          (if !(desc1 == "") && !(stripOr it2.description == "") then
            if bs < ratio (pyUpper desc1) (pyUpper (stripOr it2.description)) ∧
                (80 : ℚ) ≤ ratio (pyUpper desc1) (pyUpper (stripOr it2.description)) then
              (some (j, it2), ratio (pyUpper desc1) (pyUpper (stripOr it2.description)))
            else (best, bs)
          else (best, bs)) from by
        unfold fuzz_step; rw [if_neg hj]]
      split
      · split
        · exact ih (j + 1) _ _ h
        · exact ih (j + 1) _ _ h
      · exact ih (j + 1) _ _ h

/-- Interpretation of a spec-side selection as the code's scan state. -/
def stQ : Option (ℕ × LineItem × ℚ) → Option (ℕ × LineItem) × ℚ
  | none => (none, 0)
  | some (j, it, s) => (some (j, it), s)

theorem fuzz_fold_spec (ratio : String → String → ℚ) (it1 : LineItem) (used : List ℕ) :
    ∀ (cands : List (ℕ × LineItem)) (acc : Option (ℕ × LineItem × ℚ)),
    (acc = none ∨ ∃ q : ℕ × LineItem × ℚ, acc = some q ∧ (80 : ℚ) ≤ q.2.2) →
    cands.foldl (fuzz_step ratio (stripOr it1.description) used) (stQ acc) =
      stQ (((cands.filter (fun p => decide (p.1 ∉ used))).filter
          (fun p => decide ((80 : ℚ) ≤ spec_fuzzy ratio it1 p.2))).foldl
        (spec_pick ratio it1) acc) := by
  intro cands
  induction cands with
  | nil => intro acc _; rfl
  | cons p rest ih =>
    intro acc hacc
    rw [List.foldl_cons, List.filter_cons]
    by_cases hu : p.1 ∈ used
    · have hd : (decide (p.1 ∉ used)) = false := by simp [hu]
      rw [hd]
      simp only [Bool.false_eq_true, if_false]
      rw [show fuzz_step ratio (stripOr it1.description) used (stQ acc) p = stQ acc from by
        unfold fuzz_step; rw [if_pos hu]]
      exact ih acc hacc
    · have hd : (decide (p.1 ∉ used)) = true := by simp [hu]
      rw [hd]
      simp only [if_true]
      rw [List.filter_cons]
      by_cases hge : (80 : ℚ) ≤ spec_fuzzy ratio it1 p.2
      · have hgd : (decide ((80 : ℚ) ≤ spec_fuzzy ratio it1 p.2)) = true := by
          simp [hge]
        rw [hgd]
        simp only [if_true]
        rw [List.foldl_cons]
        have hd1 : (stripOr it1.description == "") = false ∧
            (stripOr p.2.description == "") = false := by
          by_contra hcon
          have h0 : spec_fuzzy ratio it1 p.2 = 0 := by
            unfold spec_fuzzy
            dsimp only
            rcases hb1 : (stripOr it1.description == "") with _ | _
            · rcases hb2 : (stripOr p.2.description == "") with _ | _
              · exact absurd ⟨hb1, hb2⟩ hcon
              · simp [hb2]
            · simp [hb1]
          rw [h0] at hge
          norm_num at hge
        have hfz : spec_fuzzy ratio it1 p.2 =
            ratio (pyUpper (stripOr it1.description)) (pyUpper (stripOr p.2.description)) := by
          unfold spec_fuzzy
          dsimp only
          rw [hd1.1, hd1.2]
          simp
        have hcond : (!(stripOr it1.description == "") &&
            !(stripOr p.2.description == "")) = true := by
          rw [hd1.1, hd1.2]
          rfl
        have hstep : fuzz_step ratio (stripOr it1.description) used (stQ acc) p =
            stQ (spec_pick ratio it1 acc p) := by
          unfold fuzz_step
          rw [if_neg hu]
          dsimp only
          rw [hcond]
          simp only [if_true]
          rcases hacc with rfl | ⟨q, rfl, hq⟩
          · have hpos : (0 : ℚ) <
                ratio (pyUpper (stripOr it1.description)) (pyUpper (stripOr p.2.description)) := by
              rw [← hfz]
              exact lt_of_lt_of_le (by norm_num) hge
            simp only [stQ]
            rw [if_pos ⟨hpos, by rw [← hfz]; exact hge⟩]
            unfold spec_pick
            dsimp only [stQ]
            rw [hfz]
          · obtain ⟨j0, it0, s0⟩ := q
            simp only [stQ]
            unfold spec_pick
            dsimp only
            by_cases hlt : s0 <
                ratio (pyUpper (stripOr it1.description)) (pyUpper (stripOr p.2.description))
            · rw [if_pos ⟨hlt, by rw [← hfz]; exact hge⟩]
              rw [if_pos (by rw [hfz]; exact hlt)]
              dsimp only [stQ]
              rw [hfz]
            · rw [if_neg (by intro hcon; exact hlt hcon.1)]
              rw [if_neg (by rw [hfz]; exact hlt)]
        rw [hstep]
        apply ih
        unfold spec_pick
        rcases hacc with rfl | ⟨q, rfl, hq⟩
        all_goals dsimp only
        · right
          exact ⟨(p.1, p.2, spec_fuzzy ratio it1 p.2), rfl, hge⟩
        · obtain ⟨j0, it0, s0⟩ := q
          by_cases hlt : s0 < spec_fuzzy ratio it1 p.2
          · rw [if_pos hlt]
            right
            exact ⟨(p.1, p.2, spec_fuzzy ratio it1 p.2), rfl, hge⟩
          · rw [if_neg hlt]
            right
            exact ⟨(j0, it0, s0), rfl, hq⟩
      · have hgd : (decide ((80 : ℚ) ≤ spec_fuzzy ratio it1 p.2)) = false := by
          simp [hge]
        rw [hgd]
        simp only [Bool.false_eq_true, if_false]
        have hstep : fuzz_step ratio (stripOr it1.description) used (stQ acc) p =
            stQ acc := by
          unfold fuzz_step
          rw [if_neg hu]
          dsimp only
          rcases hb : (!(stripOr it1.description == "") &&
              !(stripOr p.2.description == "")) with _ | _
          · rfl
          · rw [if_pos rfl]
            rw [Bool.and_eq_true, Bool.not_eq_true', Bool.not_eq_true'] at hb
            have hfz : spec_fuzzy ratio it1 p.2 =
                ratio (pyUpper (stripOr it1.description)) (pyUpper (stripOr p.2.description)) := by
              unfold spec_fuzzy
              dsimp only
              rw [hb.1, hb.2]
              simp
            rw [if_neg]
            rintro ⟨-, hc2⟩
            rw [← hfz] at hc2
            exact hge hc2
        rw [hstep]
        exact ih acc hacc

theorem match_scan_spec (ratio : String → String → ℚ) (it1 : LineItem)
    (used : List ℕ) (items2 : List LineItem) :
    match_scan ratio (stripOr it1.description)
      (normalize_item_number (stripOr it1.item_number)) (stripOr it1.item_number)
      used 0 items2 none 0 =
      stQ (spec_select ratio used it1 items2) := by
  have hpred : (fun q : ℕ × LineItem => spec_num_match it1 q.2) =
      (fun q : ℕ × LineItem => code_num_match
        (normalize_item_number (stripOr it1.item_number)) (stripOr it1.item_number) q.2) :=
    funext fun q => (code_num_match_eq_spec it1 q.2).symm
  unfold spec_select
  dsimp only
  have henum : items2.enum = List.enumFrom 0 items2 := rfl
  rw [henum]
  rcases hf : ((List.enumFrom 0 items2).filter (fun p => decide (p.1 ∉ used))).find?
      (fun p => spec_num_match it1 p.2) with _ | p
  · rw [hf]
    have hf2 : ((List.enumFrom 0 items2).filter (fun q => decide (q.1 ∉ used))).find?
        (fun q => code_num_match (normalize_item_number (stripOr it1.item_number))
          (stripOr it1.item_number) q.2) = none := by
      rw [← hpred]
      exact hf
    rw [match_scan_no_num ratio (stripOr it1.description)
      (normalize_item_number (stripOr it1.item_number)) (stripOr it1.item_number)
      used items2 0 none 0 hf2]
    exact fuzz_fold_spec ratio it1 used (List.enumFrom 0 items2) none (Or.inl rfl)
  · rw [hf]
    have hf2 : ((List.enumFrom 0 items2).filter (fun q => decide (q.1 ∉ used))).find?
        (fun q => code_num_match (normalize_item_number (stripOr it1.item_number))
          (stripOr it1.item_number) q.2) = some p := by
      rw [← hpred]
      exact hf
    rw [match_scan_num_found ratio (stripOr it1.description)
      (normalize_item_number (stripOr it1.item_number)) (stripOr it1.item_number)
      used items2 0 none 0 p hf2]
    rfl

theorem match_items_go_spec (ratio : String → String → ℚ) (items2 : List LineItem) :
    ∀ (l : List LineItem) (i : ℕ) (used : List ℕ),
    match_items_go ratio items2 i l used = spec_match_items_go ratio items2 i l used := by
  intro l
  induction l with
  | nil => intro i used; rfl
  | cons it1 rest ih =>
    intro i used
    rw [match_items_go, spec_match_items_go]
    rw [match_scan_spec ratio it1 used items2]
    rcases hsel : spec_select ratio used it1 items2 with _ | ⟨j, it2, sc⟩
    · dsimp only [stQ]
      exact ih (i + 1) used
    · dsimp only [stQ]
      rw [ih]

theorem match_scan_not_used (ratio : String → String → ℚ)
    (desc1 norm1 num1 : String) (used : List ℕ) :
    ∀ (l : List LineItem) (j : ℕ) (best : Option (ℕ × LineItem)) (bs : ℚ)
      (p : ℕ × LineItem) (s : ℚ),
    (∀ q : ℕ × LineItem, best = some q → q.1 ∉ used) →
    match_scan ratio desc1 norm1 num1 used j l best bs = (some p, s) → p.1 ∉ used := by
  intro l
  induction l with
  | nil =>
    intro j best bs p s hbest h
    rw [match_scan] at h
    injection h with h1 h2
    exact hbest p h1
  | cons it2 rest ih =>
    intro j best bs p s hbest h
    rw [match_scan] at h
    by_cases hj : j ∈ used
    · rw [if_pos hj] at h
      exact ih (j + 1) best bs p s hbest h
    · rw [if_neg hj] at h
      dsimp only at h
      have hbreak : ∀ (hh : (some (j, it2), (100 : ℚ)) = (some p, s)), p.1 ∉ used := by
        intro hh
        injection hh with h1 h2
        obtain rfl : p = (j, it2) := by injection h1 with h0; exact h0.symm
        exact hj
      split at h
      · exact hbreak h
      · split at h
        · exact hbreak h
        · split at h
          · exact hbreak h
          · split at h
            · split at h
              · refine ih (j + 1) _ _ p s ?_ h
                intro q hq
                obtain rfl : q = (j, it2) := by injection hq with h0; exact h0.symm
                exact hj
              · exact ih (j + 1) best bs p s hbest h
            · exact ih (j + 1) best bs p s hbest h

theorem match_items_go_not_used (ratio : String → String → ℚ) (items2 : List LineItem) :
    ∀ (l : List LineItem) (i : ℕ) (used : List ℕ) (m : ItemMatch),
    m ∈ match_items_go ratio items2 i l used → m.right_index ∉ used := by
  intro l
  induction l with
  | nil => intro i used m h; rw [match_items_go] at h; exact absurd h (List.not_mem_nil m)
  | cons it1 rest ih =>
    intro i used m h
    rw [match_items_go] at h
    rcases hscan : match_scan ratio (stripOr it1.description)
        (normalize_item_number (stripOr it1.item_number)) (stripOr it1.item_number)
        used 0 items2 none 0 with ⟨b, s⟩
    rw [hscan] at h
    rcases b with _ | ⟨j, it2⟩
    · exact ih (i + 1) used m h
    · rcases List.mem_cons.mp h with rfl | hmem
      · exact match_scan_not_used ratio _ _ _ used items2 0 none 0 (j, it2) s
          (fun q hq => Option.noConfusion hq) hscan
      · intro hin
        exact ih (i + 1) (j :: used) m hmem (List.mem_cons_of_mem j hin)

theorem match_items_go_pairwise (ratio : String → String → ℚ) (items2 : List LineItem) :
    ∀ (l : List LineItem) (i : ℕ) (used : List ℕ),
    List.Pairwise (fun a b : ItemMatch => a.right_index ≠ b.right_index)
      (match_items_go ratio items2 i l used) := by
  intro l
  induction l with
  | nil => intro i used; rw [match_items_go]; exact List.Pairwise.nil
  | cons it1 rest ih =>
    intro i used
    rw [match_items_go]
    rcases hscan : match_scan ratio (stripOr it1.description)
        (normalize_item_number (stripOr it1.item_number)) (stripOr it1.item_number)
        used 0 items2 none 0 with ⟨b, s⟩
    rcases b with _ | ⟨j, it2⟩
    · exact ih (i + 1) used
    · refine List.Pairwise.cons ?_ (ih (i + 1) (j :: used))
      intro b hb heq
      have hnb := match_items_go_not_used ratio items2 rest (i + 1) (j :: used) b hb
      apply hnb
      rw [← heq]
      exact List.mem_cons_self _ _

/-- C6: the line-item matcher is the spec's greedy deterministic
algorithm — left items processed in order; a left item pairs at score 100
with the FIRST unused right item whose non-empty normalized item number
equals its own, and only otherwise with the unused right item of highest
description similarity, provided the similarity reaches the threshold 80,
ties resolving to the lowest right index (`spec_select`); empty
descriptions never fuzzy-match (`spec_fuzzy` forces score 0); and no right
item is used in two pairs (pairwise-distinct right indices). -/
theorem C6_matcher_greedy (ratio : String → String → ℚ) (items1 items2 : List LineItem) :
    match_items ratio items1 items2 = spec_match_items ratio items1 items2 ∧
    List.Pairwise (fun a b : ItemMatch => a.right_index ≠ b.right_index)
      (match_items ratio items1 items2) :=
  ⟨match_items_go_spec ratio items2 items1 0 [],
   match_items_go_pairwise ratio items2 items1 0 []⟩

/-! ## C9 — identical documents: helper lemmas -/

theorem filter_enumFrom_ge (used : List ℕ) (k : ℕ) (hused : ∀ j, j ∈ used ↔ j < k) :
    ∀ (l : List LineItem) (i : ℕ), k ≤ i →
    (List.enumFrom i l).filter (fun p => decide (p.1 ∉ used)) = List.enumFrom i l := by
  intro l
  induction l with
  | nil => intro i _; rfl
  | cons it rest ih =>
    intro i hk
    rw [List.enumFrom_cons, List.filter_cons]
    have hd : (decide ((i, it).1 ∉ used)) = true := by
      simp only [decide_eq_true_eq]
      rw [hused]
      omega
    rw [hd]
    simp only [if_true]
    rw [ih (i + 1) (by omega)]

theorem filter_enumFrom_eq_drop (used : List ℕ) (k : ℕ) (hused : ∀ j, j ∈ used ↔ j < k) :
    ∀ (l : List LineItem) (i : ℕ), i ≤ k →
    (List.enumFrom i l).filter (fun p => decide (p.1 ∉ used)) =
      List.enumFrom k (l.drop (k - i)) := by
  intro l
  induction l with
  | nil => intro i _; simp
  | cons it rest ih =>
    intro i hik
    by_cases hlt : i < k
    · rw [List.enumFrom_cons, List.filter_cons]
      have hd : (decide ((i, it).1 ∉ used)) = false := by
        simp only [decide_eq_false_iff_not, Decidable.not_not]
        exact (hused i).mpr hlt
      rw [hd]
      simp only [Bool.false_eq_true, if_false]
      rw [ih (i + 1) (by omega)]
      have hs : k - i = (k - (i + 1)) + 1 := by omega
      rw [hs, List.drop_succ_cons]
    · have hik2 : i = k := by omega
      subst hik2
      rw [Nat.sub_self, List.drop_zero]
      exact filter_enumFrom_ge used i hused (it :: rest) i (le_refl i)

theorem spec_fuzzy_le (ratio : String → String → ℚ)
    (hbound : ∀ a b, ratio a b ≤ 100) (it1 it2 : LineItem) :
    spec_fuzzy ratio it1 it2 ≤ 100 := by
  unfold spec_fuzzy
  dsimp only
  split
  · norm_num
  · exact hbound _ _

theorem spec_pick_stay (ratio : String → String → ℚ) (it1 : LineItem)
    (hbound : ∀ a b, ratio a b ≤ 100) :
    ∀ (cands : List (ℕ × LineItem)) (j0 : ℕ) (it0 : LineItem),
    cands.foldl (spec_pick ratio it1) (some (j0, it0, 100)) = some (j0, it0, 100) := by
  intro cands
  induction cands with
  | nil => intro j0 it0; rfl
  | cons p rest ih =>
    intro j0 it0
    rw [List.foldl_cons]
    rw [show spec_pick ratio it1 (some (j0, it0, 100)) p = some (j0, it0, 100) from by
      unfold spec_pick
      dsimp only
      rw [if_neg (not_lt.mpr (spec_fuzzy_le ratio hbound it1 p.2))]]
    exact ih j0 it0

theorem spec_select_self (ratio : String → String → ℚ)
    (hbound : ∀ a b, ratio a b ≤ 100) (href : ∀ s, ratio s s = 100)
    (full : List LineItem) (k : ℕ) (it : LineItem) (rest : List LineItem)
    (hdrop : full.drop k = it :: rest)
    (used : List ℕ) (hused : ∀ j, j ∈ used ↔ j < k)
    (hit : stripOr it.item_number ≠ "" ∨ stripOr it.description ≠ "") :
    spec_select ratio used it full = some (k, it, 100) := by
  unfold spec_select
  dsimp only
  have hcands : full.enum.filter (fun p => decide (p.1 ∉ used)) =
      (k, it) :: List.enumFrom (k + 1) rest := by
    have h0 : full.enum = List.enumFrom 0 full := rfl
    rw [h0, filter_enumFrom_eq_drop used k hused full 0 (Nat.zero_le k),
      Nat.sub_zero, hdrop, List.enumFrom_cons]
  rw [hcands]
  by_cases hnum : stripOr it.item_number = ""
  · have hdesc : stripOr it.description ≠ "" := by
      rcases hit with h | h
      · exact absurd hnum h
      · exact h
    have h100 : spec_fuzzy ratio it it = 100 := by
      unfold spec_fuzzy
      dsimp only
      have hb : (stripOr it.description == "") = false := by simpa using hdesc
      rw [hb]
      simp only [Bool.or_self, Bool.false_eq_true, if_false]
      exact href _
    have hnone : ((k, it) :: List.enumFrom (k + 1) rest).find?
        (fun p => spec_num_match it p.2) = none := by
      rw [List.find?_eq_none]
      intro p _
      unfold spec_num_match
      dsimp only
      rw [hnum]
      rw [show normalize_item_number "" = "" from rfl]
      simp
    rw [hnone]
    rw [List.filter_cons]
    have hk80 : (decide ((80 : ℚ) ≤ spec_fuzzy ratio it (k, it).2)) = true := by
      simp only [decide_eq_true_eq]
      rw [h100]
      norm_num
    rw [hk80]
    simp only [if_true]
    rw [List.foldl_cons]
    rw [show spec_pick ratio it none (k, it) = some (k, it, spec_fuzzy ratio it it) from rfl]
    rw [h100]
    exact spec_pick_stay ratio it hbound _ k it
  · have hnm : spec_num_match it it = true := by
      unfold spec_num_match
      dsimp only
      have hne := normalize_ne_empty (stripOr it.item_number) (pyStrip_stripOr _) hnum
      have hb : (normalize_item_number (stripOr it.item_number) == "") = false := by
        simpa using hne
      rw [hb]
      simp
    have hfind : List.find? (fun p => spec_num_match it p.2)
        ((k, it) :: List.enumFrom (k + 1) rest) = some (k, it) :=
      List.find?_cons_of_pos _ (by simpa using hnm)
    rw [hfind]

theorem match_items_go_self (ratio : String → String → ℚ) (full : List LineItem)
    (href : ∀ s, ratio s s = 100) (hbound : ∀ a b, ratio a b ≤ 100)
    (hitems : ∀ it2 ∈ full, stripOr it2.item_number ≠ "" ∨ stripOr it2.description ≠ "") :
    ∀ (l : List LineItem) (k : ℕ) (used : List ℕ),
    full.drop k = l → (∀ j, j ∈ used ↔ j < k) →
    match_items_go ratio full k l used =
      (List.enumFrom k l).map (fun p => ⟨p.1, p.2, p.1, p.2, 100⟩) := by
  intro l
  induction l with
  | nil => intro k used _ _; rfl
  | cons it rest ih =>
    intro k used hdrop hused
    rw [match_items_go]
    rw [match_scan_spec ratio it used full]
    rw [spec_select_self ratio hbound href full k it rest hdrop used hused
      (hitems it (List.mem_of_mem_drop (hdrop ▸ List.mem_cons_self it rest)))]
    dsimp only [stQ]
    rw [List.enumFrom_cons, List.map_cons]
    congr 1
    apply ih (k + 1) (k :: used)
    · rw [← List.tail_drop, hdrop]
      rfl
    · intro j
      rw [List.mem_cons, hused]
      omega

theorem pair_discrepancies_refl (i : ℕ) (it : LineItem) :
    pair_discrepancies ⟨i, it, i, it, 100⟩ = [] := by
  unfold pair_discrepancies
  dsimp only
  simp only [sub_self, abs_zero]
  rw [if_neg (show ¬ (1 / 100 : ℚ) < 0 by norm_num)]
  rw [if_neg (show ¬ (1 / 100 : ℚ) < 0 by norm_num)]
  rw [if_neg (show ¬ (100 : ℚ) < 80 by norm_num)]
  simp

theorem currency_discrepancies_refl (d : ExtractedData) :
    currency_discrepancies d d = [] := by
  unfold currency_discrepancies
  split
  · rw [if_neg (by simp)]
  · rfl

theorem tax_rate_discrepancies_refl (d : ExtractedData) :
    tax_rate_discrepancies d d = [] := by
  unfold tax_rate_discrepancies
  rcases h : d.tax_rate with _ | pr
  · rfl
  · dsimp only
    simp only [sub_self, abs_zero]
    rw [if_neg (show ¬ (1 / 10 : ℚ) < 0 by norm_num)]

theorem tax_amount_discrepancies_refl (d : ExtractedData) :
    tax_amount_discrepancies d d = [] := by
  unfold tax_amount_discrepancies
  rcases h : d.tax_amount with _ | t
  · rfl
  · dsimp only
    rw [tax_tolerance_eq]
    simp only [sub_self, abs_zero]
    rw [if_neg (show ¬ max (1 : ℚ) (min t t * (1 / 100)) < 0 from by
      intro hcon
      have h1 := le_max_left (1 : ℚ) (min t t * (1 / 100))
      linarith)]

theorem compare_line_items_refl (ratio : String → String → ℚ) (d : ExtractedData)
    (href : ∀ s, ratio s s = 100) (hbound : ∀ a b, ratio a b ≤ 100)
    (hitems : ∀ it ∈ d.line_items.getD [],
      stripOr it.item_number ≠ "" ∨ stripOr it.description ≠ "") :
    compare_line_items ratio d d none = [] := by
  unfold compare_line_items
  dsimp only
  have hm : match_items ratio (d.line_items.getD []) (d.line_items.getD []) =
      (List.enumFrom 0 (d.line_items.getD [])).map
        (fun p => ⟨p.1, p.2, p.1, p.2, 100⟩) := by
    unfold match_items
    exact match_items_go_self ratio _ href hbound hitems _ 0 [] rfl (by simp)
  rw [hm]
  have hpair : ((List.enumFrom 0 (d.line_items.getD [])).map
      (fun p => (⟨p.1, p.2, p.1, p.2, 100⟩ : ItemMatch))).flatMap pair_discrepancies = [] := by
    rw [List.flatMap_eq_nil_iff]
    intro m hm2
    rw [List.mem_map] at hm2
    obtain ⟨p, -, rfl⟩ := hm2
    exact pair_discrepancies_refl p.1 p.2
  have hmiss : (d.line_items.getD []).enum.filterMap (fun p =>
      if ((List.enumFrom 0 (d.line_items.getD [])).map
          (fun p => (⟨p.1, p.2, p.1, p.2, 100⟩ : ItemMatch))).any
          (fun m => m.left_index == p.1) then
        none
      else some ({ dtype := "missing_item",
                   severity := "high",
                   item_number := p.2.item_number,
                   description := p.2.description,
                   po_value := some (.wholeItem p.2),
                   invoice_value := none,
                   delivery_value := none } : Discrepancy)) = [] := by
    rw [List.filterMap_eq_nil_iff]
    intro p hp
    have hany : ((List.enumFrom 0 (d.line_items.getD [])).map
        (fun p => (⟨p.1, p.2, p.1, p.2, 100⟩ : ItemMatch))).any
        (fun m => m.left_index == p.1) = true := by
      rw [List.any_eq_true]
      exact ⟨⟨p.1, p.2, p.1, p.2, 100⟩, List.mem_map.mpr ⟨p, hp, rfl⟩, by simp⟩
    rw [hany]
    simp
  have hextra : (d.line_items.getD []).enum.filterMap (fun p =>
      if ((List.enumFrom 0 (d.line_items.getD [])).map
          (fun p => (⟨p.1, p.2, p.1, p.2, 100⟩ : ItemMatch))).any
          (fun m => m.right_index == p.1) then
        none
      else some ({ dtype := "extra_item",
                   severity := "medium",
                   item_number := p.2.item_number,
                   description := p.2.description,
                   po_value := none,
                   invoice_value := some (.wholeItem p.2),
                   delivery_value := none } : Discrepancy)) = [] := by
    rw [List.filterMap_eq_nil_iff]
    intro p hp
    have hany : ((List.enumFrom 0 (d.line_items.getD [])).map
        (fun p => (⟨p.1, p.2, p.1, p.2, 100⟩ : ItemMatch))).any
        (fun m => m.right_index == p.1) = true := by
      rw [List.any_eq_true]
      exact ⟨⟨p.1, p.2, p.1, p.2, 100⟩, List.mem_map.mpr ⟨p, hp, rfl⟩, by simp⟩
    rw [hany]
    simp
  rw [hpair, hmiss, hextra]
  simp

/-- A concrete similarity function with rapidfuzz's contract: reflexive at
100 and bounded by 100. -/
def c9ratio : String → String → ℚ := fun a b => if a == b then 100 else 0

/-- The anonymous line item of the C9 counterexample: no item number, no
description. -/
def c9_item : LineItem :=
  { quantity := some 5, unit_price := some 2, line_total := some 10 }

/-- The record of the C9 counterexample (used for both PO and Invoice). -/
def c9_data : ExtractedData :=
  { po_number := some "PO-1"
    vendor_name := some "Acme"
    currency_code := some "USD"
    tax_rate := some 8
    tax_amount := some 4
    subtotal := some 50
    total_amount := some 54
    line_items := some [c9_item] }

/-- C9 counterexample: identical PO and Invoice records (identical line
items and scalar fields) still produce discrepancies when a line item has
neither an item number nor a description — the item cannot match itself,
so a `missing_item` and an `extra_item` are emitted. -/
theorem C9_counterexample :
    (compare_line_items c9ratio c9_data c9_data none ++
      currency_discrepancies c9_data c9_data ++ tax_rate_discrepancies c9_data c9_data ++
      tax_amount_discrepancies c9_data c9_data).map (fun d => (d.dtype, d.severity)) =
      [("missing_item", "high"), ("extra_item", "medium")] := by
  norm_num [compare_line_items, c9_data, c9_item, c9ratio, match_items, match_items_go,
    match_scan, pair_discrepancies, dn_merge_step, normalize_item_number,
    digit_int_check, stripOr, pyStrip, pyUpper, isPySpace, pyIsdigit, pyParseInt,
    parseDigits, digitsCore, pyIntStr, natToDecimal, natToDecimalGo, digitChar,
    orZeroQ, truthyQ, truthyS, pyOrS,
    currency_discrepancies, tax_rate_discrepancies, tax_amount_discrepancies,
    calculate_quantity_discrepancy_severity, calculate_price_discrepancy_severity,
    List.foldl, List.filter, List.find?, List.any, List.map, List.flatMap,
    List.enum, List.enumFrom, List.filterMap, Option.map, Option.bind, Option.getD]

/-- C9 (amended): for identical PO and Invoice records compared with a
similarity that is reflexive at 100 and bounded by 100 (rapidfuzz's
contract), the field comparator emits zero discrepancies PROVIDED every
line item carries a non-empty stripped item number or a non-empty
stripped description; fully anonymous items break the property. -/
theorem C9_identical_zero_discrepancies (ratio : String → String → ℚ) (d : ExtractedData)
    (href : ∀ s, ratio s s = 100) (hbound : ∀ a b, ratio a b ≤ 100)
    (hitems : ∀ it ∈ d.line_items.getD [],
      stripOr it.item_number ≠ "" ∨ stripOr it.description ≠ "") :
    compare_line_items ratio d d none ++ currency_discrepancies d d ++
      tax_rate_discrepancies d d ++ tax_amount_discrepancies d d = [] := by
  rw [compare_line_items_refl ratio d href hbound hitems, currency_discrepancies_refl,
    tax_rate_discrepancies_refl, tax_amount_discrepancies_refl]
  rfl

/-- Witness for C9 at a concrete record with a named line item. -/
theorem C9_witness :
    compare_line_items c9ratio
        { currency_code := some "USD", tax_rate := some 8,
          line_items := some [{ item_number := some "1", quantity := some 5 }] }
        { currency_code := some "USD", tax_rate := some 8,
          line_items := some [{ item_number := some "1", quantity := some 5 }] } none ++
      currency_discrepancies
        { currency_code := some "USD", tax_rate := some 8,
          line_items := some [{ item_number := some "1", quantity := some 5 }] }
        { currency_code := some "USD", tax_rate := some 8,
          line_items := some [{ item_number := some "1", quantity := some 5 }] } ++
      tax_rate_discrepancies
        { currency_code := some "USD", tax_rate := some 8,
          line_items := some [{ item_number := some "1", quantity := some 5 }] }
        { currency_code := some "USD", tax_rate := some 8,
          line_items := some [{ item_number := some "1", quantity := some 5 }] } ++
      tax_amount_discrepancies
        { currency_code := some "USD", tax_rate := some 8,
          line_items := some [{ item_number := some "1", quantity := some 5 }] }
        { currency_code := some "USD", tax_rate := some 8,
          line_items := some [{ item_number := some "1", quantity := some 5 }] } = [] :=
  C9_identical_zero_discrepancies c9ratio _
    (fun s => by simp [c9ratio])
    (fun a b => by
      unfold c9ratio
      split <;> norm_num)
    (by
      intro it hit
      simp only [Option.getD_some] at hit
      rw [List.mem_singleton] at hit
      subst hit
      left
      decide)

/-! ## C1 — invoice selection order -/

/-- PO extracted data for the C1 counterexample. -/
def c1_po_data : ExtractedData :=
  { po_number := some "PO-1", vendor_name := some "Acme" }

/-- First invoice: wrong PO number, same vendor name. -/
def c1_inv1_data : ExtractedData :=
  { po_number := some "X", vendor_name := some "Acme" }

/-- Second invoice: matching PO number, unrelated vendor name. -/
def c1_inv2_data : ExtractedData :=
  { po_number := some "PO-1", vendor_name := some "Zeta" }

/-- First invoice document of the C1 counterexample. -/
def c1_inv1 : Document := ⟨"I1", "W", .invoice, "PROCESSED"⟩

/-- Second invoice document of the C1 counterexample. -/
def c1_inv2 : Document := ⟨"I2", "W", .invoice, "PROCESSED"⟩

/-- Extracted-data table of the C1 counterexample. -/
def c1_ext : List (String × ExtractedData) := [("I1", c1_inv1_data), ("I2", c1_inv2_data)]

/-- C1 counterexample: invoice `I2` matches the PO by PO number while `I1`
matches only by vendor name, yet the pairer returns `I1` because the
PO-number preference is applied per invoice while scanning in list order,
not across the whole list. -/
theorem C1_counterexample :
    po_numbers_match c1_po_data.po_number c1_inv2_data.po_number = true ∧
    po_numbers_match c1_po_data.po_number c1_inv1_data.po_number = false ∧
    find_matching_invoice (fun _ _ => 0) c1_ext c1_po_data [c1_inv1, c1_inv2] = some c1_inv1 ∧
    c1_inv1 ≠ c1_inv2 := by
  refine ⟨by decide, by decide, by decide, by decide⟩

/-- C1 (amended): the pairer scans invoices in input order and selects the
first invoice with extracted data that matches by PO number OR by vendor
name; PO-number preference holds only within one invoice, not across the
list. -/
theorem C1_invoice_selection (ratio : String → String → ℚ)
    (ext : List (String × ExtractedData)) (pd : ExtractedData) (invs : List Document) :
    find_matching_invoice ratio ext pd invs = invs.find? (fun inv =>
      match get_extracted_data ext inv.id with
      | none => false
      | some d => po_numbers_match pd.po_number d.po_number ||
          (truthyS pd.vendor_name && truthyS d.vendor_name &&
            vendor_names_match ratio pd.vendor_name d.vendor_name)) := by
  induction invs with
  | nil => rfl
  | cons inv rest ih =>
    rw [find_matching_invoice, List.find?_cons]
    rcases e : get_extracted_data ext inv.id with _ | d
    · simp only [e]
      rw [ih]
    · simp only [e]
      by_cases h1 : po_numbers_match pd.po_number d.po_number = true
      · simp [h1]
      · rw [Bool.not_eq_true] at h1
        by_cases h2 : (truthyS pd.vendor_name && truthyS d.vendor_name &&
            vendor_names_match ratio pd.vendor_name d.vendor_name) = true
        · simp [h1, h2]
        · rw [Bool.not_eq_true] at h2
          simp [h1, h2, ih]

/-- Witness for C5 at concrete records. -/
theorem C5_witness :
    tax_amount_discrepancies { tax_amount := some 50 } { tax_amount := some 10 } ≠ [] :=
  (C5_tax_amount { tax_amount := some 50 } { tax_amount := some 10 } 50 10 rfl rfl).1.mpr
    (by
      refine ⟨by norm_num, ?_⟩
      rintro (⟨s, r, hs, -⟩ | ⟨s, r, hs, -⟩) <;> exact Option.noConfusion hs)

end InvoiceFlow
